import Mathlib

/-!
Verification of the analysis-and-recommendation core of the
DataCleaningAutomation repository: `core/analyzer.py` (`DataAnalyzer`,
report generation) and `core/recommender.py` (`RecommendationEngine`,
threshold-based suggestions), together with the column classifier of
`core/utils.py` and the validator of `core/cleaner.py`.

Modelling conventions:
* A pandas DataFrame is a `Table`: a row count plus an ordered list of
  named, typed columns of cells (`Cell.naC` is a missing value / NaN).
* Python runtime values flowing through the report dictionary are
  `PyVal`; Python dictionaries are ordered association lists, matching
  Python insertion order.  Statistics whose exact real value has the
  form a·√b (sample std, skewness, Pearson correlation) are recorded
  exactly as `PyVal.vSqrt a b`; all other statistics are exact
  rationals.  IEEE float rounding is out of scope: arithmetic is exact
  rational / real arithmetic.
* Raised Python exceptions are `Except PyErr`; `PyErr` keeps the
  exception class and message.
-/

namespace DCA

/-- A single table cell: a numeric value, a string value, or missing
(pandas NaN/None). -/
inductive Cell
  | ratC (q : Rat)
  | strC (s : String)
  | naC
deriving DecidableEq

/-- Declared pandas dtype kind of a column: numeric (`select_dtypes
include=number`), categorical (`object`/`category`), or any other dtype
(e.g. datetime), which belongs to neither classifier list. -/
inductive Dtype
  | numeric
  | categorical
  | other
deriving DecidableEq

/-- A named, typed column of cells. -/
structure Col where
  name : String
  dtype : Dtype
  cells : List Cell

/-- A DataFrame: row count and ordered columns. -/
structure Table where
  nrows : Nat
  cols : List Col

/-- Cells allowed in a column of the given declared dtype: numeric
columns hold numbers or NaN, categorical columns hold strings or
missing. -/
def cellOkB : Dtype → Cell → Bool
  | .numeric, .ratC _ => true
  | .numeric, .naC => true
  | .numeric, _ => false
  | .categorical, .strC _ => true
  | .categorical, .naC => true
  | .categorical, _ => false
  | .other, _ => true

/-- Well-formedness: every column holds exactly `nrows` cells, all
consistent with the column's declared dtype. -/
def WfTable (t : Table) : Prop :=
  ∀ c ∈ t.cols, c.cells.length = t.nrows ∧ ∀ x ∈ c.cells, cellOkB c.dtype x = true

/-- `df.empty`: true when either axis has length zero. -/
def dfEmpty (t : Table) : Bool := t.nrows = 0 || t.cols.isEmpty

/-- Python exception: class plus message. -/
inductive PyErr
  | valueError (msg : String)
  | typeError (msg : String)
  | attributeError (msg : String)
deriving DecidableEq

/-- Python runtime values appearing in report dictionaries.
`vSqrt a b` is the exact real number a·√b (with b ≥ 0 at every use
site); `vNan` is float NaN; `vDict` is an insertion-ordered dict. -/
inductive PyVal
  | vInt (n : Int)
  | vRat (q : Rat)
  | vSqrt (a b : Rat)
  | vNan
  | vStr (s : String)
  | vNone
  | vTuple (l : List Int)
  | vDict (kvs : List (String × PyVal))

/-- Python type name, used in exception messages. -/
def typeName : PyVal → String
  | .vInt _ => "int"
  | .vRat _ => "float"
  | .vSqrt _ _ => "float"
  | .vNan => "float"
  | .vStr _ => "str"
  | .vNone => "NoneType"
  | .vTuple _ => "tuple"
  | .vDict _ => "dict"

/-- Lookup in an insertion-ordered dict (Python dict keys are unique;
`find?` takes the first occurrence). -/
def dictLookup (kvs : List (String × PyVal)) (k : String) : Option PyVal :=
  (kvs.find? (fun p => p.1 = k)).map (fun p => p.2)

/-- Explicit `Except` sequencing (Python statement-by-statement
evaluation; an uncaught exception aborts the rest). -/
def ebind (x : Except PyErr α) (f : α → Except PyErr β) : Except PyErr β :=
  match x with
  | .error e => .error e
  | .ok a => f a

/-- Run a fallible step for each list element in order, collecting the
results; the first exception aborts the loop (Python `for` over
`dict.items()` with `append`). -/
def emapM (f : α → Except PyErr β) : List α → Except PyErr (List β)
  | [] => .ok []
  | a :: as => ebind (f a) fun b => ebind (emapM f as) fun bs => .ok (b :: bs)

/-!
The rational arithmetic of the embedding is written with the
kernel-computable helpers below (built on `mkRat`, `Rat.num`,
`Rat.den`), rather than the `@[irreducible]` field operations of `Rat`,
so that theorems about concrete tables evaluate by `rfl`/`decide`.
Bridge lemmas later prove each helper equal to the corresponding field
operation, and the symbolic proofs go through those.
-/

/-- Rational addition (kernel-computable; equals `a + b`). -/
def qadd (a b : Rat) : Rat :=
  mkRat (a.num * b.den + b.num * a.den) (a.den * b.den)

/-- Rational subtraction (kernel-computable; equals `a - b`). -/
def qsub (a b : Rat) : Rat :=
  mkRat (a.num * b.den - b.num * a.den) (a.den * b.den)

/-- Rational multiplication (kernel-computable; equals `a * b`). -/
def qmul (a b : Rat) : Rat := mkRat (a.num * b.num) (a.den * b.den)

/-- Rational division (kernel-computable; equals `a / b`, with the
`x / 0 = 0` convention). -/
def qdiv (a b : Rat) : Rat :=
  mkRat (a.num * b.den * b.num.sign) (a.den * b.num.natAbs)

/-- Rational absolute value (kernel-computable; equals `|a|`). -/
def qabs (a : Rat) : Rat := mkRat a.num.natAbs a.den

/-- Sum of a list of rationals (kernel-computable; equals `l.sum`). -/
def qsum (l : List Rat) : Rat := l.foldr qadd 0

/-- Lexicographic comparison of char lists by code point. -/
def strLtAux : List Char → List Char → Bool
  | [], [] => false
  | [], _ :: _ => true
  | _ :: _, [] => false
  | a :: as, b :: bs =>
    if a < b then true
    else if b < a then false
    else strLtAux as bs

/-- String comparison by code point, as NumPy/Python compare strings
(kernel-computable, unlike `String.lt`'s decidability instance). -/
def strLtB (s t : String) : Bool := strLtAux s.data t.data

/-- Round half to even to an integer (the rounding used by Python
`round`, pandas `.round` and `printf`-style float formatting, idealised
over exact rationals). -/
def roundHalfEven (q : Rat) : Int :=
  let f := Rat.floor q
  let r := qsub q (f : Rat)
  if r < mkRat 1 2 then f
  else if mkRat 1 2 < r then f + 1
  else if f % 2 = 0 then f else f + 1

/-- pandas `.round(2)`: round half to even at two decimal places. -/
def round2 (q : Rat) : Rat := mkRat (roundHalfEven (qmul q 100)) 100

/-- Rational approximation to √b (only used to render the decimal text
of an a·√b statistic, mirroring the float approximation Python would
print; never on any path exercised by the theorems below). -/
def sqrtApproxR (b : Rat) : Rat :=
  if b ≤ 0 then 0
  else mkRat (Nat.sqrt (b.num.toNat * b.den * 10 ^ 24)) (b.den * 10 ^ 12)

/-- Python `f"{x:.df}"` fixed-point formatting of an exact rational. -/
def fmtFixed (d : Nat) (q : Rat) : String :=
  let n := roundHalfEven (qmul q ((10 ^ d : Nat) : Rat))
  let m := n.natAbs
  let pow := 10 ^ d
  let ip := m / pow
  let fp := m % pow
  let fs := toString fp
  let fs := String.mk (List.replicate (d - fs.length) '0') ++ fs
  let sign := if n < 0 ∨ (n = 0 ∧ q < 0) then "-" else ""
  if d = 0 then sign ++ toString ip else sign ++ toString ip ++ "." ++ fs

/-- Python `f"{v:.df}"` on a report value.  Only numeric values reach a
format specifier in the program (every format site is guarded by a
strict numeric comparison), so the non-numeric fallbacks below are
unreachable there. -/
def fmtVal (d : Nat) : PyVal → String
  | .vInt n => fmtFixed d (n : Rat)
  | .vRat q => fmtFixed d q
  | .vSqrt a b => fmtFixed d (a * sqrtApproxR b)
  | .vNan => "nan"
  | .vStr s => s
  | .vNone => "None"
  | .vTuple _ => "tuple"
  | .vDict _ => "dict"

/-- Python `str(v)` (only applied to `int` counts on the paths the
theorems exercise; the float rendering abstracts Python shortest
round-trip repr by a fixed-precision expansion). -/
def pyStr : PyVal → String
  | .vInt n => toString n
  | .vRat q => if q.den = 1 then toString q.num ++ ".0" else fmtFixed 12 q
  | .vSqrt a b => fmtFixed 12 (a * sqrtApproxR b)
  | .vNan => "nan"
  | .vStr s => s
  | .vNone => "None"
  | .vTuple _ => "tuple"
  | .vDict _ => "dict"

/-- Exact real numbers of the form a·√b (b ≥ 0), plus NaN: the numeric
values a report can carry. -/
inductive PyNum
  | nan
  | srt (a b : Rat)

/-- View a report value as a number, if it is one. -/
def toNum : PyVal → Option PyNum
  | .vInt n => some (.srt (n : Rat) 1)
  | .vRat q => some (.srt q 1)
  | .vSqrt a b => some (.srt a b)
  | .vNan => some .nan
  | _ => none

/-- Sign of the real number a·√b. -/
def sgnAB (a b : Rat) : Int :=
  if a = 0 ∨ b = 0 then 0 else if 0 < a then 1 else -1

/-- Decide a·√b < c·√d (b, d ≥ 0) by comparing signs, then squares. -/
def ltAB (a b c d : Rat) : Bool :=
  let s1 := sgnAB a b
  let s2 := sgnAB c d
  if s1 < s2 then true
  else if s2 < s1 then false
  else if s1 = 0 then false
  else if s1 = 1 then decide (qmul (qmul a a) b < qmul (qmul c c) d)
  else decide (qmul (qmul c c) d < qmul (qmul a a) b)

/-- Decide a·√b = c·√d (b, d ≥ 0). -/
def eqAB (a b c d : Rat) : Bool :=
  sgnAB a b = sgnAB c d && qmul (qmul a a) b = qmul (qmul c c) d

/-- Message of `x < y` / `x > y` on incomparable operand types. -/
def cmpMsg (op : String) (v w : PyVal) : String :=
  s!"\x27{op}\x27 not supported between instances of \x27{typeName v}\x27 and \x27{typeName w}\x27"

/-- Python `v < w`: false whenever NaN is involved; `TypeError` when an
operand is not a number. -/
def pyLt (v w : PyVal) : Except PyErr Bool :=
  match toNum v, toNum w with
  | some (.srt a b), some (.srt c d) => .ok (ltAB a b c d)
  | some _, some _ => .ok false
  | _, _ => .error (.typeError (cmpMsg "<" v w))

/-- Python `v <= w`. -/
def pyLe (v w : PyVal) : Except PyErr Bool :=
  match toNum v, toNum w with
  | some (.srt a b), some (.srt c d) => .ok (!ltAB c d a b)
  | some _, some _ => .ok false
  | _, _ => .error (.typeError (cmpMsg "<=" v w))

/-- Python `v > w`. -/
def pyGt (v w : PyVal) : Except PyErr Bool :=
  match toNum v, toNum w with
  | some (.srt a b), some (.srt c d) => .ok (ltAB c d a b)
  | some _, some _ => .ok false
  | _, _ => .error (.typeError (cmpMsg ">" v w))

/-- Python `v == w`: never raises; NaN is unequal to everything;
cross-type numeric comparison is by value. -/
def pyEqB (v w : PyVal) : Bool :=
  match toNum v, toNum w with
  | some (.srt a b), some (.srt c d) => eqAB a b c d
  | some _, some _ => false
  | _, _ =>
    match v, w with
    | .vStr s, .vStr u => s = u
    | .vNone, .vNone => true
    | _, _ => false

/-- Python `abs(v)`. -/
def pyAbs (v : PyVal) : Except PyErr PyVal :=
  match v with
  | .vInt n => .ok (.vInt n.natAbs)
  | .vRat q => .ok (.vRat (qabs q))
  | .vSqrt a b => .ok (.vSqrt (qabs a) b)
  | .vNan => .ok .vNan
  | _ => .error (.typeError s!"bad operand type for abs(): \x27{typeName v}\x27")

/-- Python `v.get(k, dflt)`: dict lookup with default; `AttributeError`
on any non-dict receiver. -/
def pyGet (v : PyVal) (k : String) (dflt : PyVal) : Except PyErr PyVal :=
  match v with
  | .vDict kvs => .ok ((dictLookup kvs k).getD dflt)
  | _ => .error (.attributeError s!"\x27{typeName v}\x27 object has no attribute \x27get\x27")

/-- Python `v.items()` iterated in insertion order; `AttributeError` on
a non-dict receiver. -/
def pyItems (v : PyVal) : Except PyErr (List (String × PyVal)) :=
  match v with
  | .vDict kvs => .ok kvs
  | _ => .error (.attributeError s!"\x27{typeName v}\x27 object has no attribute \x27items\x27")

/-! ## RecommendationEngine (`core/recommender.py`) -/

/-- The four keys `generate_suggestions` requires, in the checked
order. -/
def requiredKeys : List String :=
  ["missing_summary", "duplicate_summary", "categorical_summary", "numeric_summary"]

/-- The `for key in required_keys` presence loop: `ValueError` at the
first absent key. -/
def checkKeys (kvs : List (String × PyVal)) : List String → Except PyErr Unit
  | [] => .ok ()
  | k :: ks =>
    if (dictLookup kvs k).isSome then checkKeys kvs ks
    else .error (.valueError s!"Missing expected key \x27{k}\x27 in report dictionary.")

/-- The Python chained comparison `lo < v <= hi` (short-circuiting). -/
def pyChainLtLe (lo : Int) (v : PyVal) (hi : Int) : Except PyErr Bool :=
  ebind (pyLt (.vInt lo) v) fun b =>
    if b then pyLe v (.vInt hi) else .ok false

/-- One iteration of the missing-values loop (recommender lines 32-45):
reads `missing_percent` (default 0), buckets it, and produces exactly
one suggestion string. -/
def missingSuggestion (col : String) (st : PyVal) : Except PyErr String :=
  ebind (pyGet st "missing_percent" (.vInt 0)) fun mp =>
    ebind (pyChainLtLe 0 mp 5) fun c1 =>
      if c1 then
        .ok s!"Column \x27{col}\x27 has minor missing values ({fmtVal 1 mp}%). Consider imputing with mean/median/mode."
      else
        ebind (pyChainLtLe 5 mp 30) fun c2 =>
          if c2 then
            .ok s!"Column \x27{col}\x27 has moderate missing values ({fmtVal 1 mp}%). Consider advanced imputation (e.g., KNN, regression)."
          else
            ebind (pyGt mp (.vInt 30)) fun c3 =>
              if c3 then
                .ok s!"Column \x27{col}\x27 has high missing values ({fmtVal 1 mp}%). Consider dropping the column or using domain-specific imputation."
              else
                .ok s!"Column \x27{col}\x27 has no missing values — no action needed."

/-- One iteration of the categorical-cardinality loop (lines 51-61):
at most one suggestion. -/
def catSuggestion (col : String) (st : PyVal) : Except PyErr (Option String) :=
  ebind (pyGet st "nunique" (.vInt 0)) fun nu =>
    ebind (pyGt nu (.vInt 50)) fun b1 =>
      if b1 then
        .ok (some s!"Column \x27{col}\x27 has high cardinality ({pyStr nu} unique values). Avoid OneHot encoding.")
      else if pyEqB nu (.vInt 1) then
        .ok (some s!"Column \x27{col}\x27 has only 1 unique value. Consider dropping it.")
      else .ok none

/-- One iteration of the numeric loop (lines 63-79): the skew branch
(Box-Cox for |skew| > 3, log/sqrt for 1 < |skew| <= 3) followed,
independently, by the kurtosis branch (kurtosis > 3). -/
def numSuggestions (col : String) (st : PyVal) : Except PyErr (List String) :=
  ebind (pyGet st "skew" (.vInt 0)) fun sk0 =>
    ebind (pyAbs sk0) fun skew =>
      ebind (pyGet st "kurtosis" (.vInt 0)) fun kurt =>
        ebind (pyGt skew (.vInt 3)) fun b1 =>
          ebind
            (if b1 then
              .ok [s!"Column \x27{col}\x27 is highly skewed (Skew: {fmtVal 2 skew}). Consider Box-Cox transformation."]
            else
              ebind (pyGt skew (.vInt 1)) fun b2 =>
                if b2 then
                  .ok [s!"Column \x27{col}\x27 is moderately skewed (Skew: {fmtVal 2 skew}). Consider log or square root transformation."]
                else .ok []) fun skewPart =>
          ebind (pyGt kurt (.vInt 3)) fun b3 =>
            .ok (skewPart ++
              if b3 then
                [s!"Column \x27{col}\x27 has high kurtosis (Kurtosis: {fmtVal 2 kurt}). Consider handling potential outliers."]
              else [])

/-- `RecommendationEngine.generate_suggestions`: validate the input
shape, then run the four rule groups in program order, appending to a
single list (missing-value suggestions, then the duplicate suggestion,
then categorical-cardinality, then numeric skew/kurtosis). -/
def generate_suggestions (rd : PyVal) : Except PyErr (List String) :=
  match rd with
  | .vDict kvs =>
    ebind (checkKeys kvs requiredKeys) fun _ =>
      let ms := (dictLookup kvs "missing_summary").getD (.vDict [])
      ebind (pyGet ((dictLookup kvs "duplicate_summary").getD (.vDict [])) "duplicate_rows" (.vInt 0)) fun dupv =>
        let cs := (dictLookup kvs "categorical_summary").getD (.vDict [])
        let ns := (dictLookup kvs "numeric_summary").getD (.vDict [])
        ebind (pyItems ms) fun msItems =>
          ebind (emapM (fun p => missingSuggestion p.1 p.2) msItems) fun missingS =>
            ebind (pyGt dupv (.vInt 0)) fun db =>
              let dupS := if db then [s!"Data contains {pyStr dupv} duplicate rows. Consider removing them."] else []
              ebind (pyItems cs) fun csItems =>
                ebind (emapM (fun p => catSuggestion p.1 p.2) csItems) fun catS =>
                  ebind (pyItems ns) fun nsItems =>
                    ebind (emapM (fun p => numSuggestions p.1 p.2) nsItems) fun numS =>
                      .ok (missingS ++ dupS ++ catS.reduceOption ++ numS.flatten)
  | _ => .error (.valueError "Input \x27report_dict\x27 must be a dictionary.")

/-! ## Column classifier (`core/utils.py`) -/

/-- `get_numeric_columns`: columns of arithmetic dtype, in table
order.  (The source returns the names and re-selects `df[names]`; the
embedding keeps the columns themselves.) -/
def get_numeric_columns (t : Table) : List Col :=
  t.cols.filter (fun c => decide (c.dtype = Dtype.numeric))

/-- `get_categorical_columns`: `object`/`category` columns, in table
order. -/
def get_categorical_columns (t : Table) : List Col :=
  t.cols.filter (fun c => decide (c.dtype = Dtype.categorical))

/-! ## DataAnalyzer (`core/analyzer.py`) -/

/-- Message of `BaseValidator._validate_dataframe`. -/
def emptyMsg : String := "The DataFrame is empty or not initialized."

/-- `BaseValidator._validate_dataframe` (`core/cleaner.py` lines 9-12):
raise `ValueError` when the DataFrame is empty. -/
def validateDf (t : Table) : Except PyErr Unit :=
  if dfEmpty t then .error (.valueError emptyMsg) else .ok ()

/-- `df[col].isnull()` count for one column. -/
def naCount (c : Col) : Nat := c.cells.countP (fun x => decide (x = Cell.naC))

/-- `missing_summary` (analyzer lines 24-43), at DataFrame level: for
every column of the table, the missing count and
`round(count / row_count * 100, 2)`. -/
def missing_summary (t : Table) : Except PyErr (List (String × Nat × Rat)) :=
  ebind (validateDf t) fun _ =>
    .ok (t.cols.map fun c =>
      (c.name, naCount c, round2 (qmul (qdiv (naCount c : Rat) (t.nrows : Rat)) 100)))

/-- Row `i` of the table (cells across columns). -/
def rowAt (t : Table) (i : Nat) : List Cell :=
  t.cols.map (fun c => c.cells.getD i Cell.naC)

/-- `df.duplicated().sum()`: rows equal to some earlier row, all
columns considered, missing compared equal to missing (keep-first
semantics). -/
def dupCount (t : Table) : Nat :=
  (List.range t.nrows).countP (fun i =>
    (List.range i).any (fun j => decide (rowAt t j = rowAt t i)))

/-- `duplicate_summary` (lines 45-54). -/
def duplicate_summary (t : Table) : Except PyErr Nat :=
  ebind (validateDf t) fun _ => .ok (dupCount t)

/-- Non-missing numeric values of a column, in order (`skipna`
behaviour of the pandas reductions). -/
def colRats (c : Col) : List Rat :=
  c.cells.filterMap (fun x => match x with | .ratC q => some q | _ => none)

/-- Insert into a sorted list (ascending). -/
def insertSorted (x : Rat) : List Rat → List Rat
  | [] => [x]
  | y :: ys => if x ≤ y then x :: y :: ys else y :: insertSorted x ys

/-- Sort ascending (insertion sort). -/
def sortR (xs : List Rat) : List Rat := xs.foldr insertSorted []

/-- Median of a nonempty list: middle element, or the average of the
two middle elements for even length. -/
def medianR (xs : List Rat) : Rat :=
  let s := sortR xs
  let n := xs.length
  if n % 2 = 1 then s.getD (n / 2) 0
  else qdiv (qadd (s.getD (n / 2 - 1) 0) (s.getD (n / 2) 0)) 2

/-- The five statistics of `numeric_summary` for one column's
non-missing values, with pandas `nan*` semantics: mean/median need at
least 1 value, std at least 2, skew at least 3, kurtosis at least 4
(else NaN); skew and kurtosis are 0 when the variance is zero.  The
exact real values are `std = √(m2/(n-1))`,
`skew = n·√(n-1)/(n-2) · m3/m2^(3/2)` and the rational adjusted
kurtosis, with mk the k-th central moment sum Σ(x-mean)^k; the two
sqrt-based values are recorded in `a·√b` form. -/
def statsOf (xs : List Rat) : List (String × PyVal) :=
  let n := xs.length
  if n = 0 then
    [("mean", .vNan), ("median", .vNan), ("std", .vNan), ("skew", .vNan), ("kurtosis", .vNan)]
  else
    let nr : Rat := n
    let mu := qdiv (qsum xs) nr
    let d := xs.map (fun x => qsub x mu)
    let m2 := qsum (d.map (fun x => qmul x x))
    let m3 := qsum (d.map (fun x => qmul (qmul x x) x))
    let m4 := qsum (d.map (fun x => qmul (qmul x x) (qmul x x)))
    [("mean", .vRat mu),
     ("median", .vRat (medianR xs)),
     ("std", if n < 2 then .vNan else .vSqrt 1 (qdiv m2 (qsub nr 1))),
     ("skew",
       if n < 3 then .vNan
       else if m2 = 0 then .vRat 0
       else .vSqrt (qdiv (qmul nr m3) (qmul (qsub nr 2) (qmul m2 m2)))
         (qmul (qsub nr 1) m2)),
     ("kurtosis",
       if n < 4 then .vNan
       else if m2 = 0 then .vRat 0
       else .vRat (qsub
         (qdiv (qmul (qmul (qmul nr (qadd nr 1)) (qsub nr 1)) m4)
           (qmul (qmul (qsub nr 2) (qsub nr 3)) (qmul m2 m2)))
         (qdiv (qmul 3 (qmul (qsub nr 1) (qsub nr 1)))
           (qmul (qsub nr 2) (qsub nr 3)))))]

/-- `numeric_summary` (lines 56-80), after the transpose and viewed at
`to_dict()` level: per numeric column, the five statistics; raises
when there is no numeric column. -/
def numeric_summary (t : Table) : Except PyErr (List (String × List (String × PyVal))) :=
  ebind (validateDf t) fun _ =>
    let ncols := get_numeric_columns t
    if ncols.isEmpty then
      .error (.valueError "No numeric columns found in the DataFrame.")
    else .ok (ncols.map fun c => (c.name, statsOf (colRats c)))

/-- Non-missing string values of a categorical column, in order. -/
def colStrs (c : Col) : List String :=
  c.cells.filterMap (fun x => match x with | .strC s => some s | _ => none)

/-- Highest frequency among the values (`value_counts().iloc[0]`). -/
def maxFreq (vs : List String) : Nat :=
  (vs.map (fun v => vs.count v)).foldr max 0

/-- Least element of a nonempty string list (lexicographic by code
point, as NumPy sorts strings). -/
def minString? : List String → Option String
  | [] => none
  | v :: vs => some (vs.foldl (fun a b => if strLtB b a then b else a) v)

/-- `Series.mode(dropna=True).iloc[0]`: pandas sorts the modal values
ascending, so the result is the least value among those of maximal
frequency (`none` when there are no non-missing values). -/
def modeOf (vs : List String) : Option String :=
  minString? (vs.dedup.filter (fun v => vs.count v = maxFreq vs))

/-- `categorical_summary` (lines 82-108), at DataFrame level: per
categorical column `(name, nunique, mode, freq)`; raises when there is
no categorical column.  An entirely missing column reports mode `None`
and freq 0. -/
def categorical_summary (t : Table) :
    Except PyErr (List (String × Nat × PyVal × Nat)) :=
  ebind (validateDf t) fun _ =>
    let ccols := get_categorical_columns t
    if ccols.isEmpty then
      .error (.valueError "No categorical columns found in the DataFrame.")
    else .ok (ccols.map fun c =>
      let vs := colStrs c
      (c.name, vs.dedup.length,
        (match modeOf vs with | some m => PyVal.vStr m | none => PyVal.vNone),
        if vs.length = 0 then 0 else maxFreq vs))

/-- Rows where both columns are non-missing (pairwise-complete
observation for `df.corr`). -/
def pairCells (cx cy : Col) : List (Rat × Rat) :=
  (cx.cells.zip cy.cells).filterMap (fun p =>
    match p with
    | (.ratC x, .ratC y) => some (x, y)
    | _ => none)

/-- Pearson correlation of two columns over pairwise-complete rows:
Sxy/√(Sxx·Syy), NaN when there is no complete pair or a zero
variance. -/
def corrV (cx cy : Col) : PyVal :=
  let ps := pairCells cx cy
  let n := ps.length
  if n = 0 then .vNan
  else
    let nr : Rat := n
    let mx := qdiv (qsum (ps.map Prod.fst)) nr
    let my := qdiv (qsum (ps.map Prod.snd)) nr
    let sxx := qsum (ps.map (fun p => qmul (qsub p.1 mx) (qsub p.1 mx)))
    let syy := qsum (ps.map (fun p => qmul (qsub p.2 my) (qsub p.2 my)))
    let sxy := qsum (ps.map (fun p => qmul (qsub p.1 mx) (qsub p.2 my)))
    if qmul sxx syy = 0 then .vNan
    else .vSqrt (qdiv sxy (qmul sxx syy)) (qmul sxx syy)

/-- `correlation_matrix` (lines 110-123): pairwise Pearson correlation
over the numeric columns; raises when there is no numeric column. -/
def correlation_matrix (t : Table) :
    Except PyErr (List (String × List (String × PyVal))) :=
  ebind (validateDf t) fun _ =>
    let ncols := get_numeric_columns t
    if ncols.isEmpty then
      .error (.valueError "No numeric columns found to compute correlation matrix.")
    else .ok (ncols.map fun cx => (cx.name, ncols.map fun cy => (cy.name, corrV cx cy)))

/-- Rendered dtype name (modelling choice for the names only:
numeric columns print as float64, categorical as object). -/
def dtypeName : Dtype → String
  | .numeric => "float64"
  | .categorical => "object"
  | .other => "datetime64[ns]"

/-- `df.memory_usage(deep=True).sum()` modelled as a deterministic
abstraction (128-byte index plus 8 bytes per cell); the exact CPython
object accounting is out of scope and no claim depends on it. -/
def memBytes (t : Table) : Rat := ((128 + 8 * t.nrows * t.cols.length : Nat) : Rat)

/-- `basic_info` (lines 9-22): shape, per-column dtype names, memory
as an `f"{mb:.2f} MB"` string. -/
def basic_info (t : Table) : Except PyErr PyVal :=
  ebind (validateDf t) fun _ =>
    .ok (.vDict
      [("shape", .vTuple [(t.nrows : Int), (t.cols.length : Int)]),
       ("dtypes", .vDict (t.cols.map fun c => (c.name, .vStr (dtypeName c.dtype)))),
       ("memory", .vStr (fmtFixed 2 (qdiv (memBytes t) 1048576) ++ " MB"))])

/-- `missing_summary().to_dict(orient='index')`. -/
def missingSummaryV (t : Table) : Except PyErr PyVal :=
  ebind (missing_summary t) fun l =>
    .ok (.vDict (l.map fun e =>
      (e.1, PyVal.vDict [("missing_count", .vInt (e.2.1 : Int)), ("missing_percent", .vRat e.2.2)])))

/-- `duplicate_summary()` as the dict `{'duplicate_rows': n}`. -/
def duplicateSummaryV (t : Table) : Except PyErr PyVal :=
  ebind (duplicate_summary t) fun d =>
    .ok (.vDict [("duplicate_rows", .vInt (d : Int))])

/-- `numeric_summary().to_dict()` (column → statistic → value). -/
def numericSummaryV (t : Table) : Except PyErr PyVal :=
  ebind (numeric_summary t) fun l =>
    .ok (.vDict (l.map fun e => (e.1, PyVal.vDict e.2)))

/-- `categorical_summary().to_dict(orient='index')`. -/
def categoricalSummaryV (t : Table) : Except PyErr PyVal :=
  ebind (categorical_summary t) fun l =>
    .ok (.vDict (l.map fun e =>
      (e.1, PyVal.vDict
        [("nunique", .vInt (e.2.1 : Int)), ("mode", e.2.2.1), ("freq", .vInt (e.2.2.2 : Int))])))

/-- `correlation_matrix().to_dict()`. -/
def correlationMatrixV (t : Table) : Except PyErr PyVal :=
  ebind (correlation_matrix t) fun l =>
    .ok (.vDict (l.map fun e => (e.1, PyVal.vDict e.2)))

/-- `str(e)` of a caught exception: its message. -/
def errMsgOf : PyErr → String
  | .valueError m => m
  | .typeError m => m
  | .attributeError m => m

/-- The `try/except` of `generate_report`'s loop: the computed value,
or the `{"error": str(e)}` marker. -/
def okOrMarker : Except PyErr PyVal → PyVal
  | .ok v => v
  | .error e => .vDict [("error", .vStr (errMsgOf e))]

/-- `generate_report` (lines 125-151): validate the DataFrame, then
assemble the six summaries in program order, downgrading any
individual failure to a per-key error marker. -/
def generate_report (t : Table) : Except PyErr PyVal :=
  ebind (validateDf t) fun _ =>
    .ok (.vDict
      [("basic_info", okOrMarker (basic_info t)),
       ("missing_summary", okOrMarker (missingSummaryV t)),
       ("duplicate_summary", okOrMarker (duplicateSummaryV t)),
       ("numeric_summary", okOrMarker (numericSummaryV t)),
       ("categorical_summary", okOrMarker (categoricalSummaryV t)),
       ("correlation_matrix", okOrMarker (correlationMatrixV t))])

/-! ## Derived shapes used to state the claims -/

/-- The `{"error": message}` marker `generate_report` substitutes for a
failing summary. -/
def errMarker (m : String) : PyVal := .vDict [("error", .vStr m)]

/-- Value stored under key `k` of a successfully generated report. -/
def reportLookup (t : Table) (k : String) : Option PyVal :=
  match generate_report t with
  | .ok (.vDict kvs) => dictLookup kvs k
  | _ => none

/-- A structurally well-formed report for the Recommendation Engine:
per-column missing entries `(name, missing_count, missing_percent)`, a
duplicate count, per-column categorical entries `(name, nunique)` and
per-column numeric entries `(name, skew, kurtosis)`, assembled exactly
as `generate_report` lays them out. -/
def mkReportKvs (entries : List (String × Int × Rat)) (dup : Int)
    (cats : List (String × Int)) (nums : List (String × Rat × Rat)) :
    List (String × PyVal) :=
  [("missing_summary", .vDict (entries.map fun e =>
      (e.1, PyVal.vDict [("missing_count", .vInt e.2.1), ("missing_percent", .vRat e.2.2)]))),
   ("duplicate_summary", .vDict [("duplicate_rows", .vInt dup)]),
   ("categorical_summary", .vDict (cats.map fun e =>
      (e.1, PyVal.vDict [("nunique", .vInt e.2)]))),
   ("numeric_summary", .vDict (nums.map fun e =>
      (e.1, PyVal.vDict [("skew", .vRat e.2.1), ("kurtosis", .vRat e.2.2)])))]

/-- The report value built from `mkReportKvs`. -/
def mkReport (entries : List (String × Int × Rat)) (dup : Int)
    (cats : List (String × Int)) (nums : List (String × Rat × Rat)) : PyVal :=
  .vDict (mkReportKvs entries dup cats nums)

/-- Expected minor-missing suggestion text. -/
def minorMsg (col : String) (p : Rat) : String :=
  s!"Column \x27{col}\x27 has minor missing values ({fmtFixed 1 p}%). Consider imputing with mean/median/mode."

/-- Expected moderate-missing suggestion text. -/
def moderateMsg (col : String) (p : Rat) : String :=
  s!"Column \x27{col}\x27 has moderate missing values ({fmtFixed 1 p}%). Consider advanced imputation (e.g., KNN, regression)."

/-- Expected high-missing suggestion text. -/
def highMsg (col : String) (p : Rat) : String :=
  s!"Column \x27{col}\x27 has high missing values ({fmtFixed 1 p}%). Consider dropping the column or using domain-specific imputation."

/-- Expected no-action suggestion text. -/
def noActionMsg (col : String) : String :=
  s!"Column \x27{col}\x27 has no missing values — no action needed."

/-- Expected duplicate-rows suggestion text. -/
def dupMsg (n : Int) : String :=
  s!"Data contains {n} duplicate rows. Consider removing them."

/-- Expected high-cardinality suggestion text. -/
def highCardMsg (col : String) (nu : Int) : String :=
  s!"Column \x27{col}\x27 has high cardinality ({nu} unique values). Avoid OneHot encoding."

/-- Expected constant-column suggestion text. -/
def oneUniqueMsg (col : String) : String :=
  s!"Column \x27{col}\x27 has only 1 unique value. Consider dropping it."

/-- Expected Box-Cox suggestion text (`s` is the absolute skew). -/
def highSkewMsg (col : String) (s : Rat) : String :=
  s!"Column \x27{col}\x27 is highly skewed (Skew: {fmtFixed 2 s}). Consider Box-Cox transformation."

/-- Expected log/sqrt suggestion text (`s` is the absolute skew). -/
def modSkewMsg (col : String) (s : Rat) : String :=
  s!"Column \x27{col}\x27 is moderately skewed (Skew: {fmtFixed 2 s}). Consider log or square root transformation."

/-- Expected high-kurtosis suggestion text. -/
def highKurtMsg (col : String) (k : Rat) : String :=
  s!"Column \x27{col}\x27 has high kurtosis (Kurtosis: {fmtFixed 2 k}). Consider handling potential outliers."

/-- The missing-percent bucketing of recommender lines 32-45: minor on
(0, 5], moderate on (5, 30], high above 30, otherwise no action. -/
def missBucket (col : String) (p : Rat) : String :=
  if 0 < p ∧ p ≤ 5 then minorMsg col p
  else if 5 < p ∧ p ≤ 30 then moderateMsg col p
  else if 30 < p then highMsg col p
  else noActionMsg col

/-- The categorical-cardinality rule of lines 51-61. -/
def catBucket (col : String) (nu : Int) : Option String :=
  if 50 < nu then some (highCardMsg col nu)
  else if nu = 1 then some (oneUniqueMsg col)
  else none

/-- The numeric skew/kurtosis rules of lines 63-79: a skew suggestion
(Box-Cox above 3 in absolute value, log/sqrt on (1, 3]) followed,
independently, by a kurtosis suggestion above 3. -/
def numBucket (col : String) (s k : Rat) : List String :=
  (if 3 < |s| then [highSkewMsg col |s|]
   else if 1 < |s| then [modSkewMsg col |s|]
   else []) ++
  (if 3 < k then [highKurtMsg col k] else [])

/-- The claim's notion of invalid recommender input: not a mapping, or
one of the four required keys absent. -/
def InvalidReportInput : PyVal → Prop
  | .vDict kvs => ∃ k ∈ requiredKeys, dictLookup kvs k = none
  | _ => True

/-- The computation never raises a `ValueError` (it may succeed or
raise a different exception class). -/
def NoVE (x : Except PyErr α) : Prop := ∀ m, x ≠ .error (.valueError m)

/-- Modelled from the claim's words (not from the source): mode
tie-breaking by the first-encountered value among those of maximal
frequency. -/
def specModeFirstEncountered (vs : List String) : Option String :=
  vs.find? (fun v => vs.count v = maxFreq vs)

/-- A one-column zero-row table (`pd.DataFrame({"a": []})`). -/
def tZeroRows : Table := ⟨0, [⟨"a", Dtype.numeric, []⟩]⟩

/-- A two-row table with a single categorical column and no numeric
column. -/
def tCatOnly : Table := ⟨2, [⟨"name", Dtype.categorical, [.strC "x", .strC "y"]⟩]⟩

/-- A three-row table with a single numeric column and no categorical
column. -/
def tNumOnly : Table := ⟨3, [⟨"a", Dtype.numeric, [.ratC 1, .ratC 2, .ratC 4]⟩]⟩

/-- A categorical column whose two values tie at frequency 1, with the
lexicographically larger one first. -/
def tTie : Table := ⟨2, [⟨"c", Dtype.categorical, [.strC "b", .strC "a"]⟩]⟩

/-- A report whose four required keys are present but whose
`missing_summary` value is a bare string. -/
def rptBadMs : PyVal :=
  .vDict [("missing_summary", .vStr "boom"), ("duplicate_summary", .vDict []),
    ("categorical_summary", .vDict []), ("numeric_summary", .vDict [])]

/-! ## Supporting lemmas -/

theorem ebind_ok (a : α) (f : α → Except PyErr β) : ebind (.ok a) f = f a := rfl

theorem ebind_err (e : PyErr) (f : α → Except PyErr β) :
    ebind (.error e) f = .error e := rfl

theorem qmk_eq (n : Int) (d : Nat) : mkRat n d = (n : ℚ) / (d : ℚ) := by
  rw [Rat.mkRat_eq_divInt, Rat.divInt_eq_div]
  norm_cast

theorem den_cast_ne (a : Rat) : ((a.den : ℚ)) ≠ 0 := by
  exact_mod_cast a.den_nz

theorem qadd_eq (a b : Rat) : qadd a b = a + b := by
  unfold qadd
  rw [qmk_eq]
  conv_rhs => rw [← Rat.num_div_den a, ← Rat.num_div_den b]
  push_cast
  rw [div_add_div _ _ (den_cast_ne a) (den_cast_ne b)]
  ring_nf

theorem qsub_eq (a b : Rat) : qsub a b = a - b := by
  unfold qsub
  rw [qmk_eq]
  conv_rhs => rw [← Rat.num_div_den a, ← Rat.num_div_den b]
  push_cast
  rw [div_sub_div _ _ (den_cast_ne a) (den_cast_ne b)]
  ring_nf

theorem qmul_eq (a b : Rat) : qmul a b = a * b := by
  unfold qmul
  rw [qmk_eq]
  conv_rhs => rw [← Rat.num_div_den a, ← Rat.num_div_den b]
  push_cast
  rw [div_mul_div_comm]

theorem qdiv_eq (a b : Rat) : qdiv a b = a / b := by
  unfold qdiv
  rcases lt_trichotomy b.num 0 with hb | hb | hb
  · have hsign : b.num.sign = -1 := Int.sign_eq_neg_one_iff_neg.mpr hb
    have habs : ((b.num.natAbs : Nat) : ℚ) = -(b.num : ℚ) := by
      rw [Int.cast_natAbs, Int.cast_abs]
      exact abs_of_neg (show (b.num : ℚ) < 0 by exact_mod_cast hb)
    rw [qmk_eq, hsign]
    push_cast [habs]
    conv_rhs => rw [← Rat.num_div_den a, ← Rat.num_div_den b]
    have hbnum : (b.num : ℚ) ≠ 0 := by
      intro h0
      exact absurd (by exact_mod_cast h0 : b.num = 0) (by omega)
    field_simp
    try ring
  · have hb0 : b = 0 := Rat.num_eq_zero.mp hb
    subst hb0
    simp [Rat.num_zero, Int.sign_zero, qmk_eq]
  · have hsign : b.num.sign = 1 := Int.sign_eq_one_iff_pos.mpr hb
    have habs : ((b.num.natAbs : Nat) : ℚ) = (b.num : ℚ) := by
      rw [Int.cast_natAbs, Int.cast_abs]
      exact abs_of_pos (show (0 : ℚ) < (b.num : ℚ) by exact_mod_cast hb)
    rw [qmk_eq, hsign]
    push_cast [habs]
    conv_rhs => rw [← Rat.num_div_den a, ← Rat.num_div_den b]
    have hbnum : (b.num : ℚ) ≠ 0 := by
      intro h0
      exact absurd (by exact_mod_cast h0 : b.num = 0) (by omega)
    field_simp
    try ring

theorem qabs_eq (a : Rat) : qabs a = |a| := by
  unfold qabs
  rw [qmk_eq]
  conv_rhs => rw [← Rat.num_div_den a]
  rw [abs_div]
  congr 1
  · push_cast
    ring
  · symm
    exact abs_of_pos (Nat.cast_pos.mpr (Nat.pos_of_ne_zero a.den_nz))

theorem qsum_eq : ∀ l : List Rat, qsum l = l.sum
  | [] => rfl
  | x :: xs => by
    simp [qsum, List.sum_cons, qadd_eq]
    rw [show List.foldr qadd 0 xs = qsum xs from rfl, qsum_eq xs]

theorem ratFloor_eq (q : Rat) : Rat.floor q = ⌊q⌋ :=
  le_antisymm (Int.le_floor.mpr (Rat.le_floor.mp le_rfl)) (Rat.le_floor.mpr (Int.floor_le q))

theorem ltAB_rat (a c : Rat) : ltAB a 1 c 1 = decide (a < c) := by
  unfold ltAB sgnAB
  simp only [qmul_eq, mul_one]
  rcases lt_trichotomy a 0 with ha | rfl | ha <;>
    rcases lt_trichotomy c 0 with hc | rfl | hc
  · simp [ha.ne, hc.ne, lt_asymm ha, lt_asymm hc]
    try rw [decide_eq_decide]
    constructor
    · intro h; nlinarith
    · intro h; nlinarith
  · simp [ha.ne, ha.ne', lt_asymm ha, ha]
  · simp [ha.ne, ha.ne', hc.ne, hc.ne', lt_asymm ha, hc, ha.trans hc]
  · simp [hc.ne, hc.ne', lt_asymm hc]
  · simp
  · simp [hc.ne, hc.ne', hc]
  · simp [ha.ne, ha.ne', hc.ne, hc.ne', ha, lt_asymm hc, lt_asymm (hc.trans ha)]
  · simp [ha.ne, ha.ne', ha, lt_asymm ha]
  · simp [ha.ne, ha.ne', hc.ne, hc.ne', ha, hc]
    try rw [decide_eq_decide]
    constructor
    · intro h; nlinarith
    · intro h; nlinarith

theorem eqAB_rat (a c : Rat) : eqAB a 1 c 1 = decide (a = c) := by
  unfold eqAB sgnAB
  simp only [qmul_eq, mul_one]
  rcases lt_trichotomy a 0 with ha | rfl | ha <;>
    rcases lt_trichotomy c 0 with hc | rfl | hc
  · simp [ha.ne, hc.ne, lt_asymm ha, lt_asymm hc]
    try rw [decide_eq_decide]
    constructor
    · intro h
      have h0 : (a - c) * (a + c) = 0 := by linear_combination h
      rcases mul_eq_zero.mp h0 with h1 | h1
      · linarith
      · linarith
    · intro h; rw [h]
  · simp [ha.ne, ha.ne', lt_asymm ha]
  · simp [ha.ne, ha.ne', hc.ne, hc.ne', lt_asymm ha, hc, (ha.trans hc).ne]
  · simp [hc.ne, hc.ne', lt_asymm hc]
  · simp
  · simp [hc.ne, hc.ne', hc]
  · simp [ha.ne, ha.ne', hc.ne, hc.ne', ha, lt_asymm hc, (hc.trans ha).ne']
  · simp [ha.ne, ha.ne', ha]
  · simp [ha.ne, ha.ne', hc.ne, hc.ne', ha, hc]
    try rw [decide_eq_decide]
    constructor
    · intro h
      have h0 : (a - c) * (a + c) = 0 := by linear_combination h
      rcases mul_eq_zero.mp h0 with h1 | h1
      · linarith
      · linarith
    · intro h; rw [h]

theorem pyLt_ratInt (n : Int) (p : Rat) :
    pyLt (.vInt n) (.vRat p) = .ok (decide ((n : Rat) < p)) := by
  simp [pyLt, toNum, ltAB_rat]

theorem pyLe_ratInt (p : Rat) (n : Int) :
    pyLe (.vRat p) (.vInt n) = .ok (decide (p ≤ (n : Rat))) := by
  simp [pyLe, toNum, ltAB_rat, ← decide_not, not_lt]

theorem pyGt_ratInt (p : Rat) (n : Int) :
    pyGt (.vRat p) (.vInt n) = .ok (decide ((n : Rat) < p)) := by
  simp [pyGt, toNum, ltAB_rat]

theorem pyGt_intInt (m n : Int) :
    pyGt (.vInt m) (.vInt n) = .ok (decide (n < m)) := by
  simp [pyGt, toNum, ltAB_rat]

theorem pyEqB_intInt (m n : Int) : pyEqB (.vInt m) (.vInt n) = decide (m = n) := by
  simp [pyEqB, toNum, eqAB_rat]

theorem pyChainLtLe_rat (lo : Int) (p : Rat) (hi : Int) :
    pyChainLtLe lo (.vRat p) hi = .ok (decide ((lo : Rat) < p ∧ p ≤ (hi : Rat))) := by
  rw [pyChainLtLe, pyLt_ratInt, ebind_ok]
  by_cases h : (lo : Rat) < p
  · simp [h, pyLe_ratInt]
  · simp [h]

theorem pyChain05 (p : Rat) :
    pyChainLtLe 0 (.vRat p) 5 = .ok (decide (0 < p ∧ p ≤ 5)) := by
  rw [pyChainLtLe_rat]; norm_num

theorem pyChain530 (p : Rat) :
    pyChainLtLe 5 (.vRat p) 30 = .ok (decide (5 < p ∧ p ≤ 30)) := by
  rw [pyChainLtLe_rat]; norm_num

theorem toString_string (s : String) : toString s = s := rfl

theorem pyGt30 (p : Rat) : pyGt (.vRat p) (.vInt 30) = .ok (decide (30 < p)) := by
  rw [pyGt_ratInt]; norm_num

theorem pyGt3 (p : Rat) : pyGt (.vRat p) (.vInt 3) = .ok (decide (3 < p)) := by
  rw [pyGt_ratInt]; norm_num

theorem pyGt1 (p : Rat) : pyGt (.vRat p) (.vInt 1) = .ok (decide (1 < p)) := by
  rw [pyGt_ratInt]; norm_num

theorem missingSuggestion_eq (col : String) (k : Int) (p : Rat) :
    missingSuggestion col
      (.vDict [("missing_count", .vInt k), ("missing_percent", .vRat p)]) =
      .ok (missBucket col p) := by
  rw [missingSuggestion]
  have hget : pyGet (.vDict [("missing_count", .vInt k), ("missing_percent", .vRat p)])
      "missing_percent" (.vInt 0) = .ok (.vRat p) := by
    simp [pyGet, dictLookup, List.find?]
  rw [hget, ebind_ok, pyChain05, ebind_ok]
  by_cases h1 : 0 < p ∧ p ≤ 5
  · simp [h1, missBucket, minorMsg, fmtVal]
  · rw [if_neg (by simp [h1]), pyChain530, ebind_ok]
    by_cases h2 : 5 < p ∧ p ≤ 30
    · simp [h1, h2, missBucket, moderateMsg, fmtVal]
    · rw [if_neg (by simp [h2]), pyGt30, ebind_ok]
      by_cases h3 : (30 : Rat) < p
      · simp [h1, h2, h3, missBucket, highMsg, fmtVal]
      · simp [h1, h2, h3, missBucket, noActionMsg]

theorem catSuggestion_eq (col : String) (nu : Int) :
    catSuggestion col (.vDict [("nunique", .vInt nu)]) = .ok (catBucket col nu) := by
  rw [catSuggestion]
  have hget : pyGet (.vDict [("nunique", .vInt nu)]) "nunique" (.vInt 0) =
      .ok (.vInt nu) := by simp [pyGet, dictLookup, List.find?]
  rw [hget, ebind_ok, pyGt_intInt, ebind_ok]
  by_cases h1 : (50 : Int) < nu
  · simp [h1, catBucket, highCardMsg, pyStr, toString_string]
  · rw [if_neg (by simp [h1]), pyEqB_intInt]
    by_cases h2 : nu = 1
    · simp [h1, h2, catBucket, oneUniqueMsg]
    · simp [h1, h2, catBucket]

theorem numSuggestions_eq (col : String) (s k : Rat) :
    numSuggestions col (.vDict [("skew", .vRat s), ("kurtosis", .vRat k)]) =
      .ok (numBucket col s k) := by
  rw [numSuggestions]
  have hgs : pyGet (.vDict [("skew", .vRat s), ("kurtosis", .vRat k)]) "skew" (.vInt 0) =
      .ok (.vRat s) := by simp [pyGet, dictLookup, List.find?]
  have hgk : pyGet (.vDict [("skew", .vRat s), ("kurtosis", .vRat k)]) "kurtosis" (.vInt 0) =
      .ok (.vRat k) := by simp [pyGet, dictLookup, List.find?]
  rw [hgs, ebind_ok]
  have habs : pyAbs (.vRat s) = .ok (.vRat |s|) := by
    simp [pyAbs, qabs_eq]
  rw [habs, ebind_ok, hgk, ebind_ok, pyGt3, ebind_ok]
  by_cases h1 : (3 : Rat) < |s|
  · rw [if_pos (by simp [h1]), ebind_ok, pyGt3, ebind_ok]
    by_cases h3 : (3 : Rat) < k
    · simp [h1, h3, numBucket, highSkewMsg, highKurtMsg, fmtVal]
    · simp [h1, h3, numBucket, highSkewMsg, fmtVal]
  · rw [if_neg (by simp [h1]), pyGt1, ebind_ok]
    by_cases h2 : (1 : Rat) < |s|
    · rw [if_pos (by simp [h2]), ebind_ok, pyGt3, ebind_ok]
      by_cases h3 : (3 : Rat) < k
      · simp [h1, h2, h3, numBucket, modSkewMsg, highKurtMsg, fmtVal]
      · simp [h1, h2, h3, numBucket, modSkewMsg, fmtVal]
    · rw [if_neg (by simp [h2]), ebind_ok, pyGt3, ebind_ok]
      by_cases h3 : (3 : Rat) < k
      · simp [h1, h2, h3, numBucket, highKurtMsg, fmtVal]
      · simp [h1, h2, h3, numBucket]

theorem emapM_map_ok {α β γ : Type} (f : β → Except PyErr γ) (g : α → β) (h : α → γ)
    (H : ∀ x, f (g x) = .ok (h x)) :
    ∀ l : List α, emapM f (l.map g) = .ok (l.map h)
  | [] => rfl
  | x :: xs => by
    simp only [List.map_cons, emapM, H x, ebind_ok, emapM_map_ok f g h H xs]

theorem mkReport_suggestions (entries : List (String × Int × Rat)) (dup : Int)
    (cats : List (String × Int)) (nums : List (String × Rat × Rat)) :
    generate_suggestions (mkReport entries dup cats nums) =
      .ok (entries.map (fun e => missBucket e.1 e.2.2) ++
        (if 0 < dup then [dupMsg dup] else []) ++
        (cats.map (fun e => catBucket e.1 e.2)).reduceOption ++
        (nums.map (fun e => numBucket e.1 e.2.1 e.2.2)).flatten) := by
  have hmiss := emapM_map_ok (fun p => missingSuggestion p.1 p.2)
    (fun e : String × Int × Rat =>
      (e.1, PyVal.vDict [("missing_count", .vInt e.2.1), ("missing_percent", .vRat e.2.2)]))
    (fun e => missBucket e.1 e.2.2)
    (fun e => missingSuggestion_eq e.1 e.2.1 e.2.2) entries
  have hcat := emapM_map_ok (fun p => catSuggestion p.1 p.2)
    (fun e : String × Int => (e.1, PyVal.vDict [("nunique", .vInt e.2)]))
    (fun e => catBucket e.1 e.2)
    (fun e => catSuggestion_eq e.1 e.2) cats
  have hnum := emapM_map_ok (fun p => numSuggestions p.1 p.2)
    (fun e : String × Rat × Rat =>
      (e.1, PyVal.vDict [("skew", .vRat e.2.1), ("kurtosis", .vRat e.2.2)]))
    (fun e => numBucket e.1 e.2.1 e.2.2)
    (fun e => numSuggestions_eq e.1 e.2.1 e.2.2) nums
  have hck : checkKeys (mkReportKvs entries dup cats nums) requiredKeys = .ok () := rfl
  have hl1 : dictLookup (mkReportKvs entries dup cats nums) "missing_summary" =
      some (.vDict (entries.map fun e =>
        (e.1, PyVal.vDict [("missing_count", .vInt e.2.1), ("missing_percent", .vRat e.2.2)]))) := rfl
  have hl2 : dictLookup (mkReportKvs entries dup cats nums) "duplicate_summary" =
      some (.vDict [("duplicate_rows", .vInt dup)]) := rfl
  have hl3 : dictLookup (mkReportKvs entries dup cats nums) "categorical_summary" =
      some (.vDict (cats.map fun e => (e.1, PyVal.vDict [("nunique", .vInt e.2)]))) := rfl
  have hl4 : dictLookup (mkReportKvs entries dup cats nums) "numeric_summary" =
      some (.vDict (nums.map fun e =>
        (e.1, PyVal.vDict [("skew", .vRat e.2.1), ("kurtosis", .vRat e.2.2)]))) := rfl
  have hdup : pyGet (.vDict [("duplicate_rows", .vInt dup)]) "duplicate_rows" (.vInt 0) =
      .ok (.vInt dup) := rfl
  simp only [mkReport, generate_suggestions, hck, ebind_ok, hl1, hl2, hl3, hl4,
    Option.getD_some, hdup, pyItems, hmiss, hcat, hnum, pyGt_intInt]
  by_cases hd : 0 < dup
  · simp [hd, dupMsg, pyStr, toString_string]
  · simp [hd]

theorem noVE_ok (a : α) : NoVE (.ok a : Except PyErr α) := by
  intro m h
  exact Except.noConfusion h

theorem noVE_ebind {x : Except PyErr α} {f : α → Except PyErr β}
    (hx : NoVE x) (hf : ∀ a, NoVE (f a)) : NoVE (ebind x f) := by
  intro m h
  cases x with
  | ok a => exact hf a m h
  | error e =>
    rw [ebind_err] at h
    injection h with he
    exact hx m (by rw [he])

theorem noVE_ite (b : Bool) {x y : Except PyErr α} (hx : NoVE x) (hy : NoVE y) :
    NoVE (if b then x else y) := by
  cases b
  · simpa using hy
  · simpa using hx

theorem noVE_emapM {f : α → Except PyErr β} (hf : ∀ a, NoVE (f a)) :
    ∀ l : List α, NoVE (emapM f l)
  | [] => noVE_ok _
  | a :: as =>
    noVE_ebind (hf a) fun _ => noVE_ebind (noVE_emapM hf as) fun _ => noVE_ok _

theorem noVE_pyGet (v : PyVal) (k : String) (d : PyVal) : NoVE (pyGet v k d) := by
  intro m
  cases v <;> simp [pyGet]

theorem noVE_pyItems (v : PyVal) : NoVE (pyItems v) := by
  intro m
  cases v <;> simp [pyItems]

theorem noVE_pyLt (v w : PyVal) : NoVE (pyLt v w) := by
  intro m
  rcases hv : toNum v with _ | (_ | ⟨a, b⟩) <;> rcases hw : toNum w with _ | (_ | ⟨c, d⟩) <;>
    simp [pyLt, hv, hw]

theorem noVE_pyLe (v w : PyVal) : NoVE (pyLe v w) := by
  intro m
  rcases hv : toNum v with _ | (_ | ⟨a, b⟩) <;> rcases hw : toNum w with _ | (_ | ⟨c, d⟩) <;>
    simp [pyLe, hv, hw]

theorem noVE_pyGt (v w : PyVal) : NoVE (pyGt v w) := by
  intro m
  rcases hv : toNum v with _ | (_ | ⟨a, b⟩) <;> rcases hw : toNum w with _ | (_ | ⟨c, d⟩) <;>
    simp [pyGt, hv, hw]

theorem noVE_pyAbs (v : PyVal) : NoVE (pyAbs v) := by
  intro m
  cases v <;> simp [pyAbs]

theorem noVE_pyChainLtLe (lo : Int) (v : PyVal) (hi : Int) :
    NoVE (pyChainLtLe lo v hi) :=
  noVE_ebind (noVE_pyLt _ _) fun _ =>
    noVE_ite _ (noVE_pyLe _ _) (noVE_ok _)

theorem noVE_missingSuggestion (c : String) (st : PyVal) :
    NoVE (missingSuggestion c st) :=
  noVE_ebind (noVE_pyGet _ _ _) fun _ =>
    noVE_ebind (noVE_pyChainLtLe _ _ _) fun _ =>
      noVE_ite _ (noVE_ok _)
        (noVE_ebind (noVE_pyChainLtLe _ _ _) fun _ =>
          noVE_ite _ (noVE_ok _)
            (noVE_ebind (noVE_pyGt _ _) fun _ =>
              noVE_ite _ (noVE_ok _) (noVE_ok _)))

theorem noVE_catSuggestion (c : String) (st : PyVal) :
    NoVE (catSuggestion c st) :=
  noVE_ebind (noVE_pyGet _ _ _) fun nu =>
    noVE_ebind (noVE_pyGt _ _) fun b1 => by
      unfold NoVE
      intro m
      split
      · simp
      · split <;> simp

theorem noVE_numSuggestions (c : String) (st : PyVal) :
    NoVE (numSuggestions c st) :=
  noVE_ebind (noVE_pyGet _ _ _) fun _ =>
    noVE_ebind (noVE_pyAbs _) fun _ =>
      noVE_ebind (noVE_pyGet _ _ _) fun _ =>
        noVE_ebind (noVE_pyGt _ _) fun _ =>
          noVE_ebind
            (noVE_ite _ (noVE_ok _)
              (noVE_ebind (noVE_pyGt _ _) fun _ =>
                noVE_ite _ (noVE_ok _) (noVE_ok _)))
            fun _ =>
              noVE_ebind (noVE_pyGt _ _) fun _ => noVE_ok _

theorem checkKeys_valueError_iff (kvs : List (String × PyVal)) :
    ∀ ks : List String,
      (∃ m, checkKeys kvs ks = .error (.valueError m)) ↔
        ∃ k ∈ ks, dictLookup kvs k = none
  | [] => by simp [checkKeys]
  | k :: ks => by
    by_cases h : (dictLookup kvs k).isSome
    · have hne : dictLookup kvs k ≠ none := by
        intro hn; rw [hn] at h; exact Bool.noConfusion h
      rw [show checkKeys kvs (k :: ks) = checkKeys kvs ks by rw [checkKeys, if_pos h]]
      rw [checkKeys_valueError_iff kvs ks]
      constructor
      · rintro ⟨k', hk', hn⟩
        exact ⟨k', List.mem_cons_of_mem k hk', hn⟩
      · rintro ⟨k', hk', hn⟩
        rcases List.mem_cons.mp hk' with rfl | hmem
        · exact absurd hn hne
        · exact ⟨k', hmem, hn⟩
    · have hn : dictLookup kvs k = none := by
        cases hd : dictLookup kvs k
        · rfl
        · rw [hd] at h; exact absurd rfl h
      rw [show checkKeys kvs (k :: ks) =
          .error (.valueError s!"Missing expected key \x27{k}\x27 in report dictionary.")
        by rw [checkKeys, if_neg h]]
      constructor
      · intro _
        exact ⟨k, List.mem_cons_self k ks, hn⟩
      · intro _
        exact ⟨_, rfl⟩

theorem generate_suggestions_valueError_iff (rd : PyVal) :
    (∃ m, generate_suggestions rd = .error (.valueError m)) ↔ InvalidReportInput rd := by
  cases rd with
  | vDict kvs =>
    show _ ↔ ∃ k ∈ requiredKeys, dictLookup kvs k = none
    rw [← checkKeys_valueError_iff kvs requiredKeys]
    constructor
    · rintro ⟨m, hm⟩
      cases hck : checkKeys kvs requiredKeys with
      | error e =>
        refine ⟨m, ?_⟩
        simp only [generate_suggestions] at hm
        rw [hck, ebind_err] at hm
        injection hm with he
        rw [he]
      | ok u =>
        exfalso
        simp only [generate_suggestions] at hm
        rw [hck, ebind_ok] at hm
        revert hm
        exact noVE_ebind (noVE_pyGet _ _ _) (fun dupv =>
          noVE_ebind (noVE_pyItems _) fun msItems =>
            noVE_ebind (noVE_emapM (fun p => noVE_missingSuggestion p.1 p.2) msItems)
              fun missingS =>
              noVE_ebind (noVE_pyGt _ _) fun db =>
                noVE_ebind (noVE_pyItems _) fun csItems =>
                  noVE_ebind (noVE_emapM (fun p => noVE_catSuggestion p.1 p.2) csItems)
                    fun catS =>
                    noVE_ebind (noVE_pyItems _) fun nsItems =>
                      noVE_ebind (noVE_emapM (fun p => noVE_numSuggestions p.1 p.2) nsItems)
                        fun numS => noVE_ok _) m
    · rintro ⟨m, hm⟩
      refine ⟨m, ?_⟩
      simp only [generate_suggestions]
      rw [hm, ebind_err]
  | vInt n => exact ⟨fun _ => trivial, fun _ => ⟨_, rfl⟩⟩
  | vRat q => exact ⟨fun _ => trivial, fun _ => ⟨_, rfl⟩⟩
  | vSqrt a b => exact ⟨fun _ => trivial, fun _ => ⟨_, rfl⟩⟩
  | vNan => exact ⟨fun _ => trivial, fun _ => ⟨_, rfl⟩⟩
  | vStr s => exact ⟨fun _ => trivial, fun _ => ⟨_, rfl⟩⟩
  | vNone => exact ⟨fun _ => trivial, fun _ => ⟨_, rfl⟩⟩
  | vTuple l => exact ⟨fun _ => trivial, fun _ => ⟨_, rfl⟩⟩

theorem validateDf_ok (t : Table) (h : dfEmpty t = false) : validateDf t = .ok () := by
  simp [validateDf, h]

theorem generate_report_ok (t : Table) (h : dfEmpty t = false) :
    generate_report t = .ok (.vDict
      [("basic_info", okOrMarker (basic_info t)),
       ("missing_summary", okOrMarker (missingSummaryV t)),
       ("duplicate_summary", okOrMarker (duplicateSummaryV t)),
       ("numeric_summary", okOrMarker (numericSummaryV t)),
       ("categorical_summary", okOrMarker (categoricalSummaryV t)),
       ("correlation_matrix", okOrMarker (correlationMatrixV t))]) := by
  rw [generate_report, validateDf_ok t h, ebind_ok]

theorem strLtAux_irrefl : ∀ l : List Char, strLtAux l l = false
  | [] => rfl
  | a :: as => by simp [strLtAux, lt_irrefl, strLtAux_irrefl as]

theorem strLtAux_trans : ∀ (l1 l2 l3 : List Char),
    strLtAux l1 l2 = true → strLtAux l2 l3 = true → strLtAux l1 l3 = true := by
  intro l1
  induction l1 with
  | nil =>
    intro l2 l3 h12 h23
    cases l2 with
    | nil => exact absurd h12 (by simp [strLtAux])
    | cons b bs =>
      cases l3 with
      | nil => exact absurd h23 (by simp [strLtAux])
      | cons c cs => simp [strLtAux]
  | cons a as ih =>
    intro l2 l3 h12 h23
    cases l2 with
    | nil => exact absurd h12 (by simp [strLtAux])
    | cons b bs =>
      cases l3 with
      | nil => exact absurd h23 (by simp [strLtAux])
      | cons c cs =>
        simp only [strLtAux] at h12 h23 ⊢
        by_cases hab : a < b
        · by_cases hbc : b < c
          · simp [lt_trans hab hbc]
          · by_cases hcb : c < b
            · simp [hbc, hcb] at h23
            · have heq : b = c := le_antisymm (not_lt.mp hcb) (not_lt.mp hbc)
              subst heq
              simp [hab]
        · by_cases hba : b < a
          · simp [hab, hba] at h12
          · have heq : a = b := le_antisymm (not_lt.mp hba) (not_lt.mp hab)
            subst heq
            simp only [lt_irrefl, if_false, if_neg (lt_irrefl a)] at h12
            by_cases hac : a < c
            · simp [hac]
            · by_cases hca : c < a
              · simp [hac, hca] at h23
              · have heq2 : a = c := le_antisymm (not_lt.mp hca) (not_lt.mp hac)
                subst heq2
                simp only [lt_irrefl, if_false, if_neg (lt_irrefl a)] at h23 ⊢
                exact ih bs cs h12 h23

theorem strLtAux_eq_of_not_lt : ∀ (l1 l2 : List Char),
    strLtAux l1 l2 = false → strLtAux l2 l1 = false → l1 = l2 := by
  intro l1
  induction l1 with
  | nil =>
    intro l2 h12 _
    cases l2 with
    | nil => rfl
    | cons b bs => simp [strLtAux] at h12
  | cons a as ih =>
    intro l2 h12 h21
    cases l2 with
    | nil => simp [strLtAux] at h21
    | cons b bs =>
      simp only [strLtAux] at h12 h21
      by_cases hab : a < b
      · simp [hab] at h12
      · by_cases hba : b < a
        · simp [hba] at h21
        · have heq : a = b := le_antisymm (not_lt.mp hba) (not_lt.mp hab)
          subst heq
          simp only [lt_irrefl, if_false, if_neg (lt_irrefl a)] at h12 h21
          rw [ih bs h12 h21]

theorem strLtB_irrefl (s : String) : strLtB s s = false := strLtAux_irrefl s.data

theorem strLtB_trans {s t u : String} (h1 : strLtB s t = true) (h2 : strLtB t u = true) :
    strLtB s u = true := strLtAux_trans _ _ _ h1 h2

theorem strLtB_total {s t : String} (h1 : strLtB s t = false) (h2 : strLtB t s = false) :
    s = t := by
  have hd := strLtAux_eq_of_not_lt s.data t.data h1 h2
  cases s
  cases t
  simp only at hd
  rw [hd]

theorem foldl_min_spec :
    ∀ (vs : List String) (a : String),
      (vs.foldl (fun x v => if strLtB v x then v else x) a = a ∨
        vs.foldl (fun x v => if strLtB v x then v else x) a ∈ vs) ∧
      strLtB a (vs.foldl (fun x v => if strLtB v x then v else x) a) = false ∧
      ∀ u ∈ vs, strLtB u (vs.foldl (fun x v => if strLtB v x then v else x) a) = false := by
  intro vs
  induction vs with
  | nil =>
    intro a
    exact ⟨Or.inl rfl, strLtB_irrefl a, by simp⟩
  | cons b bs ih =>
    intro a
    simp only [List.foldl_cons]
    obtain ⟨hmem, hacc, hall⟩ := ih (if strLtB b a then b else a)
    refine ⟨?_, ?_, ?_⟩
    · rcases hmem with h | h
      · rw [h]
        by_cases hba : strLtB b a
        · rw [if_pos hba]
          exact Or.inr (List.mem_cons_self b bs)
        · rw [if_neg hba]
          exact Or.inl rfl
      · exact Or.inr (List.mem_cons_of_mem b h)
    · by_cases hba : strLtB b a
      · rw [if_pos hba] at hacc
        cases har : strLtB a (bs.foldl (fun x v => if strLtB v x then v else x)
            (if strLtB b a then b else a)) with
        | false => rfl
        | true =>
          rw [if_pos hba] at har
          exact absurd (strLtB_trans hba har) (by rw [hacc]; simp)
      · rw [if_neg hba] at hacc ⊢
        exact hacc
    · intro u hu
      rcases List.mem_cons.mp hu with rfl | hu'
      · by_cases hba : strLtB u a
        · rw [if_pos hba] at hacc ⊢
          exact hacc
        · rw [if_neg hba] at hacc ⊢
          cases hur : strLtB u (bs.foldl (fun x v => if strLtB v x then v else x) a) with
          | false => rfl
          | true =>
            by_cases hau : strLtB a u
            · exact absurd (strLtB_trans hau hur) (by rw [hacc]; simp)
            · have heq : a = u := strLtB_total (by simpa using hau) (by simpa using hba)
              subst heq
              rw [hacc] at hur
              exact hur.symm
      · by_cases hba : strLtB b a
        · rw [if_pos hba] at hall ⊢
          exact hall u hu'
        · rw [if_neg hba] at hall ⊢
          exact hall u hu'

theorem minString?_spec (l : List String) (m : String) (h : minString? l = some m) :
    m ∈ l ∧ ∀ u ∈ l, strLtB u m = false := by
  cases l with
  | nil => simp [minString?] at h
  | cons v vs =>
    simp only [minString?, Option.some.injEq] at h
    subst h
    obtain ⟨hmem, hacc, hall⟩ := foldl_min_spec vs v
    constructor
    · rcases hmem with h | h
      · rw [h]
        exact List.mem_cons_self v vs
      · exact List.mem_cons_of_mem v h
    · intro u hu
      rcases List.mem_cons.mp hu with rfl | hu'
      · exact hacc
      · exact hall u hu'

theorem le_foldr_max : ∀ (l : List Nat) (x : Nat), x ∈ l → x ≤ l.foldr max 0 := by
  intro l
  induction l with
  | nil => intro x hx; simp at hx
  | cons a as ih =>
    intro x hx
    rcases List.mem_cons.mp hx with rfl | h
    · simp [List.foldr_cons, le_max_left]
    · exact le_trans (ih x h) (by simp [List.foldr_cons, le_max_right])

theorem foldr_max_mem : ∀ (l : List Nat), l ≠ [] → l.foldr max 0 ∈ l ∨ l.foldr max 0 = 0 := by
  intro l
  induction l with
  | nil => intro h; exact absurd rfl h
  | cons a as ih =>
    intro _
    cases as with
    | nil => simp
    | cons b bs =>
      have hstep : List.foldr max 0 (a :: b :: bs) = max a (List.foldr max 0 (b :: bs)) := rfl
      rcases ih (by simp) with h | h
      · rcases le_total a (List.foldr max 0 (b :: bs)) with hle | hle
        · rw [hstep, max_eq_right hle]
          exact Or.inl (List.mem_cons_of_mem a h)
        · rw [hstep, max_eq_left hle]
          exact Or.inl (List.mem_cons_self a _)
      · rw [hstep, h, Nat.max_zero]
        exact Or.inl (List.mem_cons_self a _)

theorem maxFreq_le (vs : List String) (v : String) (hv : v ∈ vs) :
    vs.count v ≤ maxFreq vs :=
  le_foldr_max _ _ (List.mem_map_of_mem _ hv)

theorem maxFreq_attained (vs : List String) (h : vs ≠ []) :
    ∃ v ∈ vs, vs.count v = maxFreq vs := by
  rcases foldr_max_mem (vs.map fun v => vs.count v) (by simpa using h) with hm | hm
  · rcases List.mem_map.mp hm with ⟨v, hv, hveq⟩
    exact ⟨v, hv, hveq⟩
  · cases vs with
    | nil => exact absurd rfl h
    | cons a as =>
      have h2 := maxFreq_le (a :: as) a (List.mem_cons_self a as)
      have h3 : maxFreq (a :: as) = 0 := hm
      rw [h3] at h2
      have h4 : 0 < (a :: as).count a := List.count_pos_iff.mpr (List.mem_cons_self a as)
      omega

theorem modeOf_spec (vs : List String) (h : vs ≠ []) :
    ∃ m, modeOf vs = some m ∧ m ∈ vs ∧ vs.count m = maxFreq vs ∧
      (∀ v ∈ vs, vs.count v ≤ vs.count m) ∧
      (∀ v ∈ vs, vs.count v = vs.count m → strLtB v m = false) := by
  obtain ⟨v0, hv0, hc0⟩ := maxFreq_attained vs h
  have hv0f : v0 ∈ vs.dedup.filter (fun v => vs.count v = maxFreq vs) :=
    List.mem_filter.mpr ⟨List.mem_dedup.mpr hv0, by simp [hc0]⟩
  obtain ⟨m, hm⟩ : ∃ m,
      minString? (vs.dedup.filter (fun v => vs.count v = maxFreq vs)) = some m := by
    cases hcand : vs.dedup.filter (fun v => vs.count v = maxFreq vs) with
    | nil =>
      rw [hcand] at hv0f
      simp at hv0f
    | cons x xs => exact ⟨_, rfl⟩
  obtain ⟨hmmem, hmmin⟩ := minString?_spec _ m hm
  have hm1 := List.mem_filter.mp hmmem
  have hm2 : vs.count m = maxFreq vs := by simpa using hm1.2
  refine ⟨m, hm, List.mem_dedup.mp hm1.1, hm2, ?_, ?_⟩
  · intro v hv
    rw [hm2]
    exact maxFreq_le vs v hv
  · intro v hv hveq
    apply hmmin
    exact List.mem_filter.mpr ⟨List.mem_dedup.mpr hv, by simp [hveq, hm2]⟩

theorem roundHalfEven_def (q : Rat) :
    roundHalfEven q =
      if q - (⌊q⌋ : ℚ) < 1/2 then ⌊q⌋
      else if 1/2 < q - (⌊q⌋ : ℚ) then ⌊q⌋ + 1
      else if ⌊q⌋ % 2 = 0 then ⌊q⌋ else ⌊q⌋ + 1 := by
  unfold roundHalfEven
  simp only [ratFloor_eq, qsub_eq]
  norm_num [qmk_eq]

theorem roundHalfEven_nonneg (q : Rat) (h : 0 ≤ q) : 0 ≤ roundHalfEven q := by
  rw [roundHalfEven_def]
  have h0 : (0 : Int) ≤ ⌊q⌋ := Int.floor_nonneg.mpr h
  split_ifs <;> omega

theorem roundHalfEven_le (q : Rat) (B : Int) (h : q ≤ (B : ℚ)) : roundHalfEven q ≤ B := by
  rw [roundHalfEven_def]
  have h1 : ⌊q⌋ ≤ B := by
    have := Int.floor_le_floor h
    rwa [Int.floor_intCast] at this
  have hfl : (⌊q⌋ : ℚ) ≤ q := Int.floor_le q
  split_ifs with c1 c2 c3
  · exact h1
  · have hlt : ((⌊q⌋ : Int) : ℚ) < (B : ℚ) := by linarith
    have := Int.cast_lt.mp hlt
    omega
  · exact h1
  · have hh : (⌊q⌋ : ℚ) + 1/2 ≤ q := by linarith
    have hlt : ((⌊q⌋ : Int) : ℚ) < (B : ℚ) := by linarith
    have := Int.cast_lt.mp hlt
    omega

theorem round2_eq (q : Rat) :
    round2 q = ((roundHalfEven (q * 100) : Int) : ℚ) / 100 := by
  unfold round2
  rw [qmul_eq, qmk_eq]
  norm_num

theorem round2_nonneg (q : Rat) (h : 0 ≤ q) : 0 ≤ round2 q := by
  rw [round2_eq]
  have h1 := roundHalfEven_nonneg (q * 100) (by positivity)
  have h2 : (0 : ℚ) ≤ ((roundHalfEven (q * 100) : Int) : ℚ) := by exact_mod_cast h1
  positivity

theorem round2_le_100 (q : Rat) (h : q ≤ 100) : round2 q ≤ 100 := by
  rw [round2_eq]
  have h1 : q * 100 ≤ ((10000 : Int) : ℚ) := by push_cast; nlinarith
  have h2 := roundHalfEven_le (q * 100) 10000 h1
  rw [div_le_iff₀ (by norm_num : (0:ℚ) < 100)]
  calc ((roundHalfEven (q * 100) : Int) : ℚ) ≤ ((10000 : Int) : ℚ) := by exact_mod_cast h2
    _ = 100 * 100 := by norm_num

/-! ## Claim theorems -/

/-- C1 counterexample: the claim says `generate_report` never raises,
including on a table with zero rows; but on the one-column zero-row
table the entry validation of `generate_report` raises `ValueError`
("The DataFrame is empty or not initialized.") and no report mapping is
produced. -/
theorem C1_counterexample_zero_rows :
    generate_report tZeroRows =
      .error (.valueError "The DataFrame is empty or not initialized.") := rfl

/-- C1 (amended): for every table with at least one row and at least
one column, `generate_report` returns a mapping with exactly the six
required keys in order, never raises, and each key holds its summary's
computed value or, if that summary failed, the error-marker object for
that key only.  (Zero-row or zero-column tables instead raise the
empty-table `ValueError` at entry.) -/
theorem C1_report_always_six_keys (t : Table) (h : dfEmpty t = false) :
    ∃ kvs, generate_report t = .ok (.vDict kvs) ∧
      kvs.map Prod.fst = ["basic_info", "missing_summary", "duplicate_summary",
        "numeric_summary", "categorical_summary", "correlation_matrix"] ∧
      dictLookup kvs "basic_info" = some (okOrMarker (basic_info t)) ∧
      dictLookup kvs "missing_summary" = some (okOrMarker (missingSummaryV t)) ∧
      dictLookup kvs "duplicate_summary" = some (okOrMarker (duplicateSummaryV t)) ∧
      dictLookup kvs "numeric_summary" = some (okOrMarker (numericSummaryV t)) ∧
      dictLookup kvs "categorical_summary" = some (okOrMarker (categoricalSummaryV t)) ∧
      dictLookup kvs "correlation_matrix" = some (okOrMarker (correlationMatrixV t)) := by
  have hrep : generate_report t = .ok (.vDict
      [("basic_info", okOrMarker (basic_info t)),
       ("missing_summary", okOrMarker (missingSummaryV t)),
       ("duplicate_summary", okOrMarker (duplicateSummaryV t)),
       ("numeric_summary", okOrMarker (numericSummaryV t)),
       ("categorical_summary", okOrMarker (categoricalSummaryV t)),
       ("correlation_matrix", okOrMarker (correlationMatrixV t))]) := by
    simp [generate_report, validateDf, h, ebind_ok]
  exact ⟨_, hrep, rfl, rfl, rfl, rfl, rfl, rfl, rfl⟩

/-- Witness for C1: the amended theorem applied to the concrete
non-empty categorical-only table. -/
theorem C1_report_always_six_keys_witness :
    ∃ kvs, generate_report tCatOnly = .ok (.vDict kvs) ∧
      kvs.map Prod.fst = ["basic_info", "missing_summary", "duplicate_summary",
        "numeric_summary", "categorical_summary", "correlation_matrix"] ∧
      dictLookup kvs "basic_info" = some (okOrMarker (basic_info tCatOnly)) ∧
      dictLookup kvs "missing_summary" = some (okOrMarker (missingSummaryV tCatOnly)) ∧
      dictLookup kvs "duplicate_summary" = some (okOrMarker (duplicateSummaryV tCatOnly)) ∧
      dictLookup kvs "numeric_summary" = some (okOrMarker (numericSummaryV tCatOnly)) ∧
      dictLookup kvs "categorical_summary" =
        some (okOrMarker (categoricalSummaryV tCatOnly)) ∧
      dictLookup kvs "correlation_matrix" =
        some (okOrMarker (correlationMatrixV tCatOnly)) :=
  C1_report_always_six_keys tCatOnly rfl

/-- C2: `generate_suggestions` buckets `missing_percent` with closed
upper bounds: exactly 5.0 yields the minor (mean/median/mode) text,
exactly 30.0 the moderate (advanced imputation) text, any value
strictly above 30 the high (drop column) text, and exactly 0 the
no-action text — for any column name and missing count. -/
theorem C2_missing_percent_boundaries (c : String) (k : Int) (p : Rat) (hp : 30 < p) :
    generate_suggestions (mkReport [(c, k, 5)] 0 [] []) = .ok [minorMsg c 5] ∧
    generate_suggestions (mkReport [(c, k, 30)] 0 [] []) = .ok [moderateMsg c 30] ∧
    generate_suggestions (mkReport [(c, k, p)] 0 [] []) = .ok [highMsg c p] ∧
    generate_suggestions (mkReport [(c, k, 0)] 0 [] []) = .ok [noActionMsg c] := by
  refine ⟨?_, ?_, ?_, ?_⟩
  · rw [mkReport_suggestions]
    norm_num [missBucket]
  · rw [mkReport_suggestions]
    norm_num [missBucket]
  · rw [mkReport_suggestions]
    simp only [missBucket, List.map_cons, List.map_nil]
    rw [if_neg (by rintro ⟨h1, h2⟩; linarith),
      if_neg (by rintro ⟨h1, h2⟩; linarith), if_pos hp]
    norm_num
  · rw [mkReport_suggestions]
    norm_num [missBucket]

/-- Witness for C2: the boundary theorem at column "a", count 0, and
high percent 31. -/
theorem C2_missing_percent_boundaries_witness :
    generate_suggestions (mkReport [("a", 0, 5)] 0 [] []) = .ok [minorMsg "a" 5] ∧
    generate_suggestions (mkReport [("a", 0, 30)] 0 [] []) = .ok [moderateMsg "a" 30] ∧
    generate_suggestions (mkReport [("a", 0, 31)] 0 [] []) = .ok [highMsg "a" 31] ∧
    generate_suggestions (mkReport [("a", 0, 0)] 0 [] []) = .ok [noActionMsg "a"] :=
  C2_missing_percent_boundaries "a" 0 31 (by norm_num)

/-- C3: for any structurally well-formed report the suggestion list is
ordered as: exactly one missing-value suggestion per column of
`missing_summary` in column order (including the no-action case), then
the duplicate suggestion iff `duplicate_rows > 0`, then the
categorical-cardinality suggestions in column order, then the numeric
skew/kurtosis suggestions in column order. -/
theorem C3_suggestion_order (entries : List (String × Int × Rat)) (dup : Int)
    (cats : List (String × Int)) (nums : List (String × Rat × Rat)) :
    generate_suggestions (mkReport entries dup cats nums) =
      .ok (entries.map (fun e => missBucket e.1 e.2.2) ++
        (if 0 < dup then [dupMsg dup] else []) ++
        (cats.map (fun e => catBucket e.1 e.2)).reduceOption ++
        (nums.map (fun e => numBucket e.1 e.2.1 e.2.2)).flatten) :=
  mkReport_suggestions entries dup cats nums

/-- C4 counterexample: a report that contains all four required keys
but a bare string under `missing_summary` makes `generate_suggestions`
raise `AttributeError` — it neither fails with the `InvalidReport`
`ValueError` nor returns a suggestion list, refuting the claim's
"otherwise it returns an ordered list of strings". -/
theorem C4_counterexample_malformed_value :
    generate_suggestions rptBadMs =
      .error (.attributeError "\x27str\x27 object has no attribute \x27items\x27") := rfl

/-- C4 (amended): `generate_suggestions` fails with the `InvalidReport`
`ValueError` if and only if its input is not a mapping or one of the
four required keys is absent (and then no partial list is produced,
the result being an exception); on a structurally well-formed report
it returns an ordered (possibly empty) list of strings, but a report
whose four keys are present with malformed values raises a different
exception instead of returning a list. -/
theorem C4_invalid_report_iff (rd : PyVal) (entries : List (String × Int × Rat))
    (dup : Int) (cats : List (String × Int)) (nums : List (String × Rat × Rat)) :
    ((∃ m, generate_suggestions rd = .error (.valueError m)) ↔ InvalidReportInput rd) ∧
    ∃ l, generate_suggestions (mkReport entries dup cats nums) = .ok l :=
  ⟨generate_suggestions_valueError_iff rd,
    ⟨_, mkReport_suggestions entries dup cats nums⟩⟩

/-- C5: per numeric column the recommender emits the Box-Cox text when
|skew| > 3, the log/square-root text when 1 < |skew| <= 3, and —
independently of the skew outcome — the outlier-review text when
kurtosis > 3, so one column can produce both a skew and a kurtosis
suggestion (the two if-blocks concatenate). -/
theorem C5_skew_kurtosis_rules (c : String) (s k : Rat) :
    generate_suggestions (mkReport [] 0 [] [(c, s, k)]) =
      .ok ((if 3 < |s| then [highSkewMsg c |s|]
        else if 1 < |s| then [modSkewMsg c |s|] else []) ++
        (if 3 < k then [highKurtMsg c k] else [])) := by
  rw [mkReport_suggestions]
  norm_num [numBucket]

/-- A nonempty list is not `isEmpty`. -/
theorem isEmpty_false_of_ne_nil {α : Type} {l : List α} (h : l ≠ []) : l.isEmpty = false := by
  cases l with
  | nil => exact absurd rfl h
  | cons a as => rfl

/-- C6 counterexample: on the non-empty table with a categorical column
and no numeric columns, `correlation_matrix` is not "computed
normally": it fails on its own and the report stores an error marker
under `correlation_matrix` as well, refuting "leaving every other
report key computed normally". -/
theorem C6_counterexample_corr_also_marked :
    correlation_matrix tCatOnly =
      .error (.valueError "No numeric columns found to compute correlation matrix.") ∧
    reportLookup tCatOnly "correlation_matrix" =
      some (errMarker "No numeric columns found to compute correlation matrix.") :=
  ⟨rfl, rfl⟩

/-- C6 (amended): on a non-empty table with no numeric columns,
`numeric_summary` signals `NoNumericColumns` and `generate_report`
substitutes the `{error: message}` marker for that key only — but
`correlation_matrix`, which also requires a numeric column, fails on
its own and holds its own error marker, while `basic_info`,
`missing_summary`, `duplicate_summary` hold their computed values and
`categorical_summary` holds the result of its own computation.
Symmetrically, with no categorical columns (and some numeric column)
only `categorical_summary` carries a marker and all five other keys
hold their computed values. -/
theorem C6_per_key_error_markers (tA tB : Table)
    (hA1 : dfEmpty tA = false) (hA2 : get_numeric_columns tA = [])
    (hB1 : dfEmpty tB = false) (hB2 : get_categorical_columns tB = [])
    (hB3 : get_numeric_columns tB ≠ []) :
    (numeric_summary tA =
        .error (.valueError "No numeric columns found in the DataFrame.") ∧
      correlation_matrix tA =
        .error (.valueError "No numeric columns found to compute correlation matrix.") ∧
      reportLookup tA "numeric_summary" =
        some (errMarker "No numeric columns found in the DataFrame.") ∧
      reportLookup tA "correlation_matrix" =
        some (errMarker "No numeric columns found to compute correlation matrix.") ∧
      (∃ v, basic_info tA = .ok v ∧ reportLookup tA "basic_info" = some v) ∧
      (∃ v, missingSummaryV tA = .ok v ∧ reportLookup tA "missing_summary" = some v) ∧
      (∃ v, duplicateSummaryV tA = .ok v ∧ reportLookup tA "duplicate_summary" = some v) ∧
      reportLookup tA "categorical_summary" = some (okOrMarker (categoricalSummaryV tA))) ∧
    (categorical_summary tB =
        .error (.valueError "No categorical columns found in the DataFrame.") ∧
      reportLookup tB "categorical_summary" =
        some (errMarker "No categorical columns found in the DataFrame.") ∧
      (∃ v, numericSummaryV tB = .ok v ∧ reportLookup tB "numeric_summary" = some v) ∧
      (∃ v, correlationMatrixV tB = .ok v ∧
        reportLookup tB "correlation_matrix" = some v) ∧
      (∃ v, basic_info tB = .ok v ∧ reportLookup tB "basic_info" = some v) ∧
      (∃ v, missingSummaryV tB = .ok v ∧ reportLookup tB "missing_summary" = some v) ∧
      (∃ v, duplicateSummaryV tB = .ok v ∧ reportLookup tB "duplicate_summary" = some v)) := by
  have hnumA : numeric_summary tA =
      .error (.valueError "No numeric columns found in the DataFrame.") := by
    rw [numeric_summary, validateDf_ok tA hA1, ebind_ok]
    simp [hA2]
  have hcorA : correlation_matrix tA =
      .error (.valueError "No numeric columns found to compute correlation matrix.") := by
    rw [correlation_matrix, validateDf_ok tA hA1, ebind_ok]
    simp [hA2]
  have hnumAV : numericSummaryV tA =
      .error (.valueError "No numeric columns found in the DataFrame.") := by
    rw [numericSummaryV, hnumA, ebind_err]
  have hcorAV : correlationMatrixV tA =
      .error (.valueError "No numeric columns found to compute correlation matrix.") := by
    rw [correlationMatrixV, hcorA, ebind_err]
  have hbasA : basic_info tA = .ok (.vDict
      [("shape", .vTuple [(tA.nrows : Int), (tA.cols.length : Int)]),
       ("dtypes", .vDict (tA.cols.map fun c => (c.name, .vStr (dtypeName c.dtype)))),
       ("memory", .vStr (fmtFixed 2 (qdiv (memBytes tA) 1048576) ++ " MB"))]) := by
    rw [basic_info, validateDf_ok tA hA1, ebind_ok]
  have hmisA : ∃ v, missingSummaryV tA = .ok v := by
    rw [missingSummaryV, missing_summary, validateDf_ok tA hA1, ebind_ok, ebind_ok]
    exact ⟨_, rfl⟩
  have hdupA : ∃ v, duplicateSummaryV tA = .ok v := by
    rw [duplicateSummaryV, duplicate_summary, validateDf_ok tA hA1, ebind_ok, ebind_ok]
    exact ⟨_, rfl⟩
  have hlookA : ∀ k, reportLookup tA k = dictLookup
      [("basic_info", okOrMarker (basic_info tA)),
       ("missing_summary", okOrMarker (missingSummaryV tA)),
       ("duplicate_summary", okOrMarker (duplicateSummaryV tA)),
       ("numeric_summary", okOrMarker (numericSummaryV tA)),
       ("categorical_summary", okOrMarker (categoricalSummaryV tA)),
       ("correlation_matrix", okOrMarker (correlationMatrixV tA))] k := by
    intro k
    rw [reportLookup, generate_report_ok tA hA1]
  have hcatB : categorical_summary tB =
      .error (.valueError "No categorical columns found in the DataFrame.") := by
    rw [categorical_summary, validateDf_ok tB hB1, ebind_ok]
    simp [hB2]
  have hcatBV : categoricalSummaryV tB =
      .error (.valueError "No categorical columns found in the DataFrame.") := by
    rw [categoricalSummaryV, hcatB, ebind_err]
  have hnumB : ∃ v, numericSummaryV tB = .ok v := by
    rw [numericSummaryV, numeric_summary, validateDf_ok tB hB1, ebind_ok]
    rw [if_neg (by rw [isEmpty_false_of_ne_nil hB3]; exact Bool.false_ne_true)]
    exact ⟨_, rfl⟩
  have hcorB : ∃ v, correlationMatrixV tB = .ok v := by
    rw [correlationMatrixV, correlation_matrix, validateDf_ok tB hB1, ebind_ok]
    rw [if_neg (by rw [isEmpty_false_of_ne_nil hB3]; exact Bool.false_ne_true)]
    exact ⟨_, rfl⟩
  have hbasB : ∃ v, basic_info tB = .ok v := by
    rw [basic_info, validateDf_ok tB hB1, ebind_ok]
    exact ⟨_, rfl⟩
  have hmisB : ∃ v, missingSummaryV tB = .ok v := by
    rw [missingSummaryV, missing_summary, validateDf_ok tB hB1, ebind_ok, ebind_ok]
    exact ⟨_, rfl⟩
  have hdupB : ∃ v, duplicateSummaryV tB = .ok v := by
    rw [duplicateSummaryV, duplicate_summary, validateDf_ok tB hB1, ebind_ok, ebind_ok]
    exact ⟨_, rfl⟩
  have hlookB : ∀ k, reportLookup tB k = dictLookup
      [("basic_info", okOrMarker (basic_info tB)),
       ("missing_summary", okOrMarker (missingSummaryV tB)),
       ("duplicate_summary", okOrMarker (duplicateSummaryV tB)),
       ("numeric_summary", okOrMarker (numericSummaryV tB)),
       ("categorical_summary", okOrMarker (categoricalSummaryV tB)),
       ("correlation_matrix", okOrMarker (correlationMatrixV tB))] k := by
    intro k
    rw [reportLookup, generate_report_ok tB hB1]
  refine ⟨⟨hnumA, hcorA, ?_, ?_, ?_, ?_, ?_, ?_⟩, hcatB, ?_, ?_, ?_, ?_, ?_, ?_⟩
  · rw [hlookA "numeric_summary", hnumAV]
    rfl
  · rw [hlookA "correlation_matrix", hcorAV]
    rfl
  · refine ⟨_, hbasA, ?_⟩
    rw [hlookA "basic_info", hbasA]
    rfl
  · obtain ⟨v, hv⟩ := hmisA
    refine ⟨v, hv, ?_⟩
    rw [hlookA "missing_summary", hv]
    rfl
  · obtain ⟨v, hv⟩ := hdupA
    refine ⟨v, hv, ?_⟩
    rw [hlookA "duplicate_summary", hv]
    rfl
  · rw [hlookA "categorical_summary"]
    rfl
  · rw [hlookB "categorical_summary", hcatBV]
    rfl
  · obtain ⟨v, hv⟩ := hnumB
    refine ⟨v, hv, ?_⟩
    rw [hlookB "numeric_summary", hv]
    rfl
  · obtain ⟨v, hv⟩ := hcorB
    refine ⟨v, hv, ?_⟩
    rw [hlookB "correlation_matrix", hv]
    rfl
  · obtain ⟨v, hv⟩ := hbasB
    refine ⟨v, hv, ?_⟩
    rw [hlookB "basic_info", hv]
    rfl
  · obtain ⟨v, hv⟩ := hmisB
    refine ⟨v, hv, ?_⟩
    rw [hlookB "missing_summary", hv]
    rfl
  · obtain ⟨v, hv⟩ := hdupB
    refine ⟨v, hv, ?_⟩
    rw [hlookB "duplicate_summary", hv]
    rfl

/-- Witness for C6: the amended theorem at the categorical-only table
(no numeric columns) and the numeric-only table (no categorical
columns). -/
theorem C6_per_key_error_markers_witness :
    reportLookup tCatOnly "numeric_summary" =
      some (errMarker "No numeric columns found in the DataFrame.") ∧
    reportLookup tNumOnly "categorical_summary" =
      some (errMarker "No categorical columns found in the DataFrame.") := by
  have h := C6_per_key_error_markers tCatOnly tNumOnly rfl rfl rfl rfl
    (fun hcon => List.noConfusion
      (show ([⟨"a", Dtype.numeric, [Cell.ratC 1, Cell.ratC 2, Cell.ratC 4]⟩] : List Col) = []
        from hcon))
  exact ⟨h.1.2.2.1, h.2.2.1⟩

/-- C7: on a non-empty well-formed table, `missing_summary` covers
every column (in column order, not only numeric or categorical ones),
reporting the missing count and
`missing_percent = round(count / row_count * 100, 2)`, a value that
always lies in [0, 100]. -/
theorem C7_missing_percent_formula (t : Table) (hwf : WfTable t) (h : dfEmpty t = false) :
    missing_summary t = .ok (t.cols.map fun c =>
      (c.name, naCount c, round2 ((naCount c : ℚ) / (t.nrows : ℚ) * 100))) ∧
    ∀ c ∈ t.cols,
      0 ≤ round2 ((naCount c : ℚ) / (t.nrows : ℚ) * 100) ∧
      round2 ((naCount c : ℚ) / (t.nrows : ℚ) * 100) ≤ 100 := by
  have hn : 0 < t.nrows := by
    by_contra hcon
    have h0 : t.nrows = 0 := by omega
    simp [dfEmpty, h0] at h
  constructor
  · rw [missing_summary, validateDf_ok t h, ebind_ok]
    have hfun : (fun c : Col =>
        (c.name, naCount c, round2 (qmul (qdiv ((naCount c : Nat) : Rat) ((t.nrows : Nat) : Rat)) 100)))
        = fun c : Col => (c.name, naCount c, round2 ((naCount c : ℚ) / (t.nrows : ℚ) * 100)) := by
      funext c
      rw [qdiv_eq, qmul_eq]
    rw [hfun]
  · intro c hc
    have hcount : naCount c ≤ t.nrows := by
      calc naCount c ≤ c.cells.length := List.countP_le_length _
        _ = t.nrows := (hwf c hc).1
    have hq0 : (0:ℚ) ≤ (naCount c : ℚ) / (t.nrows : ℚ) * 100 := by positivity
    have hq1 : (naCount c : ℚ) / (t.nrows : ℚ) * 100 ≤ 100 := by
      have hnr : (0:ℚ) < (t.nrows : ℚ) := by exact_mod_cast hn
      have hle : (naCount c : ℚ) ≤ (t.nrows : ℚ) := by exact_mod_cast hcount
      have hdiv : (naCount c : ℚ) / (t.nrows : ℚ) ≤ 1 := by
        rw [div_le_one hnr]
        exact hle
      nlinarith
    exact ⟨round2_nonneg _ hq0, round2_le_100 _ hq1⟩

/-- Witness for C7: the formula and bounds at the concrete two-row
categorical table. -/
theorem C7_missing_percent_formula_witness :
    (missing_summary tCatOnly = .ok (tCatOnly.cols.map fun c =>
      (c.name, naCount c, round2 ((naCount c : ℚ) / (tCatOnly.nrows : ℚ) * 100)))) ∧
    ∀ c ∈ tCatOnly.cols,
      0 ≤ round2 ((naCount c : ℚ) / (tCatOnly.nrows : ℚ) * 100) ∧
      round2 ((naCount c : ℚ) / (tCatOnly.nrows : ℚ) * 100) ≤ 100 :=
  C7_missing_percent_formula tCatOnly (by unfold WfTable; decide) rfl

/-- C8 counterexample: in the column ["b", "a"] both values tie at
frequency 1; the claim's tie-break (first-encountered) predicts mode
"b", but the code (pandas `mode()`, which sorts the modal values
ascending, then `iloc[0]`) reports "a". -/
theorem C8_counterexample_tie_break :
    categorical_summary tTie = .ok [("c", 2, PyVal.vStr "a", 1)] ∧
    specModeFirstEncountered ["b", "a"] = some "b" := ⟨rfl, rfl⟩

/-- C8 (amended): for every categorical column, `categorical_summary`
reports `nunique` as the count of distinct non-missing values, `mode`
as a most frequent value with ties broken by the least value in
ascending (code-point) order — not by first occurrence — and `freq` as
that value's occurrence count; an entirely missing column reports mode
`None` and freq 0. -/
theorem C8_categorical_mode (t : Table) (_hwf : WfTable t) (h : dfEmpty t = false)
    (hc : get_categorical_columns t ≠ []) :
    categorical_summary t = .ok ((get_categorical_columns t).map fun c =>
      (c.name, (colStrs c).dedup.length,
        (match modeOf (colStrs c) with
         | some m => PyVal.vStr m
         | none => PyVal.vNone),
        if (colStrs c).length = 0 then 0 else maxFreq (colStrs c))) ∧
    ∀ c ∈ get_categorical_columns t,
      (colStrs c = [] →
        modeOf (colStrs c) = none ∧
        (if (colStrs c).length = 0 then 0 else maxFreq (colStrs c)) = 0) ∧
      (colStrs c ≠ [] → ∃ m, modeOf (colStrs c) = some m ∧ m ∈ colStrs c ∧
        (∀ v ∈ colStrs c, (colStrs c).count v ≤ (colStrs c).count m) ∧
        (∀ v ∈ colStrs c, (colStrs c).count v = (colStrs c).count m → strLtB v m = false) ∧
        (if (colStrs c).length = 0 then 0 else maxFreq (colStrs c)) = (colStrs c).count m) := by
  constructor
  · rw [categorical_summary, validateDf_ok t h, ebind_ok,
      if_neg (by rw [isEmpty_false_of_ne_nil hc]; exact Bool.false_ne_true)]
  · intro c _
    constructor
    · intro hnil
      rw [hnil]
      exact ⟨rfl, by simp⟩
    · intro hne
      obtain ⟨m, hm, hmem, hmmax, hle, htie⟩ := modeOf_spec (colStrs c) hne
      refine ⟨m, hm, hmem, hle, htie, ?_⟩
      rw [if_neg (by simpa [List.length_eq_zero] using hne)]
      exact hmmax.symm

/-- Witness for C8: the amended theorem at the concrete tie table. -/
theorem C8_categorical_mode_witness :
    categorical_summary tTie = .ok ((get_categorical_columns tTie).map fun c =>
      (c.name, (colStrs c).dedup.length,
        (match modeOf (colStrs c) with
         | some m => PyVal.vStr m
         | none => PyVal.vNone),
        if (colStrs c).length = 0 then 0 else maxFreq (colStrs c))) ∧
    ∀ c ∈ get_categorical_columns tTie,
      (colStrs c = [] →
        modeOf (colStrs c) = none ∧
        (if (colStrs c).length = 0 then 0 else maxFreq (colStrs c)) = 0) ∧
      (colStrs c ≠ [] → ∃ m, modeOf (colStrs c) = some m ∧ m ∈ colStrs c ∧
        (∀ v ∈ colStrs c, (colStrs c).count v ≤ (colStrs c).count m) ∧
        (∀ v ∈ colStrs c, (colStrs c).count v = (colStrs c).count m → strLtB v m = false) ∧
        (if (colStrs c).length = 0 then 0 else maxFreq (colStrs c)) = (colStrs c).count m) :=
  C8_categorical_mode tTie (by unfold WfTable; decide) rfl
    (fun hcon => List.noConfusion
      (show ([⟨"c", Dtype.categorical, [Cell.strC "b", Cell.strC "a"]⟩] : List Col) = []
        from hcon))

/-- C9: on a valid table with rows and a categorical column but no
numeric column, the report generated by `generate_report` (which stores
the `{error: message}` marker under `numeric_summary`) passes the
four-key validation of `generate_suggestions`, but iterating the marker
yields the string message, whose `.get` attribute lookup raises an
uncaught `AttributeError` instead of returning a list. -/
theorem C9_error_marker_crashes_suggestions :
    Except.bind (generate_report tCatOnly) generate_suggestions =
      .error (.attributeError "\x27str\x27 object has no attribute \x27get\x27") := rfl

/-- C10: both entry points are pure functions in the embedding (the
source methods read the table/report and build fresh structures, with
no hidden state), so repeated calls on the same unmutated input yield
identical results. -/
theorem C10_deterministic (t : Table) (r : PyVal) :
    generate_report t = generate_report t ∧
    generate_suggestions r = generate_suggestions r :=
  ⟨rfl, rfl⟩

end DCA
